import Mathlib

/-!
# Psiphon connection manager: a shallow embedding

The definitions below follow `src/src/connectionmanager.cpp`.  The worker
thread is embedded as a state-passing program over a `World`: the
`ConnectionManager` fields, a trace of the calls made on the external
collaborators, the file system, and the scripted answers of those
collaborators.  The C++ exceptions `Abort` and `TryNextServer` are results.
-/

namespace Psiphon

/-! ## Data model -/

/-- The manager state, `CONNECTION_MANAGER_STATE_*`. -/
inductive ConnectionManagerState
  | STOPPED
  | STARTING
  | CONNECTED_VPN
  | CONNECTED_SSH
deriving DecidableEq, Repr

/-- The VPN connection state, `VPN_CONNECTION_STATE_*`. -/
inductive VPNConnectionState
  | STOPPED
  | STARTING
  | CONNECTED
  | FAILED
deriving DecidableEq, Repr

/-- Results of `WaitForSingleObject`. -/
inductive WaitResult
  | WAIT_OBJECT_0
  | WAIT_TIMEOUT
  | WAIT_ABANDONED
  | WAIT_FAILED
deriving DecidableEq, Repr

/-- One candidate server, as the worker reads it. -/
structure ServerEntry where
  serverAddress : String
  webServerPort : Nat
  webServerSecret : String
  webServerCertificate : String
deriving DecidableEq, Repr

/-- What a parsed handshake response carries. -/
structure HandshakeResponse where
  psk : String
  homepages : List String
  upgradeVersion : String
  discoveredServerEntries : List ServerEntry
deriving DecidableEq, Repr

/-- The per-attempt session record `m_currentSessionInfo`. -/
structure SessionInfo where
  serverEntry : ServerEntry
  psk : String
  homepages : List String
  upgradeVersion : String
  discoveredServerEntries : List ServerEntry
deriving DecidableEq, Repr

/-- Modelled from the spec: `SessionInfo::Set` is not in the sources; the
session is created fresh when a server is selected. -/
def SessionInfo.Set (serverEntry : ServerEntry) : SessionInfo :=
  { serverEntry := serverEntry, psk := "", homepages := [], upgradeVersion := "",
    discoveredServerEntries := [] }

/-- Modelled from the spec: `SessionInfo::ParseHandshakeResponse` is not in the
sources; a response that parses populates the session with the pre-shared key,
the home pages, the upgrade version and the discovered servers. -/
def SessionInfo.load (s : SessionInfo) (h : HandshakeResponse) : SessionInfo :=
  { s with psk := h.psk, homepages := h.homepages, upgradeVersion := h.upgradeVersion,
           discoveredServerEntries := h.discoveredServerEntries }

/-- The constants of `config.h` and `embeddedvalues.h` and the handshake parser
of `SessionInfo`, none of which is in the sources: they are parameters. -/
structure Config where
  HTTP_HANDSHAKE_REQUEST_PATH : String
  HTTP_CONNECTED_REQUEST_PATH : String
  HTTP_FAILED_REQUEST_PATH : String
  HTTP_DOWNLOAD_REQUEST_PATH : String
  PROPAGATION_CHANNEL_ID : String
  SPONSOR_ID : String
  CLIENT_VERSION : String
  ParseHandshakeResponse : String → Option HandshakeResponse

/-- The fields of `ConnectionManager` that the embedded code reads and writes.
`m_thread` is `none` for the null handle. -/
structure ConnectionManager where
  m_state : ConnectionManagerState
  m_userSignalledStop : Bool
  m_thread : Option Nat
  m_currentSessionInfo : SessionInfo
deriving DecidableEq, Repr

/-- The calls the embedded code makes on its collaborators, with their
arguments and, where the code branches on it, their result. -/
inductive Event
  | GetNextServer (result : Option ServerEntry)
  | GetList (result : List ServerEntry)
  | AddEntriesToList (entries : List ServerEntry)
  | MarkCurrentServerFailed
  | GetRequest (serverAddress : String) (webServerPort : Nat)
      (webServerCertificate : String) (requestPath : String) (ok : Bool)
  | GetVersionEx
  | TweakVPN
  | TweakDNS
  | VPNEstablish (serverAddress : String) (psk : String) (ok : Bool)
  | RemoveVPNConnection
  | SuspendTeardownForUpgrade
  | WaitForSingleObject (milliseconds : Nat)
  | Sleep (milliseconds : Nat)
  | OpenBrowser (homepages : List String)
  | SSHConnect (sshServerAddress sshServerPort sshServerPublicKey sshUsername
      sshPassword : String) (ok : Bool)
  | SSHWaitForConnected (ok : Bool)
  | SSHWaitAndDisconnect
  | SSHDisconnect
  | SetState (state : ConnectionManagerState)
  | DeleteFile (path : String) (ok : Bool)
  | MoveFile (source target : String) (ok : Bool)
  | CreateFile (path : String) (ok : Bool)
  | WriteFile (path : String) (ok : Bool) (written : Nat)
  | FlushFileBuffers (path : String) (ok : Bool)
  | CopyFile (source target : String) (ok : Bool)
  | ShellExecute (filename : String)
  | PostMessageQuit
  | CreateThread (handle : Option Nat)
  | WaitForThread (handle : Nat)
deriving DecidableEq, Repr

/-! ## Scripts: the answers of the collaborators, call by call -/

/-- The answers a collaborator gives to successive calls. -/
abbrev Script (α : Type) := Nat → α

/-- The answer to the next call. -/
def Script.head {α : Type} (s : Script α) : α := s 0

/-- The answers to the calls after the next one. -/
def Script.tail {α : Type} (s : Script α) : Script α := fun n => s (n + 1)

/-- A script that answers `a` first and then goes on as `s`. -/
def Script.cons {α : Type} (a : α) (s : Script α) : Script α
  | 0 => a
  | n + 1 => s n

/-- A script that gives the answers of a list and then goes on as `s`. -/
def Script.prepend {α : Type} : List α → Script α → Script α
  | [], s => s
  | a :: l, s => Script.cons a (Script.prepend l s)

/-- A script that always gives the same answer. -/
def Script.const {α : Type} (a : α) : Script α := fun _ => a

/-- A file system: a map from path to content. -/
abbrev FileSystem := String → Option String

/-- The file system with `path` bound to `content`. -/
def FileSystem.write (fs : FileSystem) (path : String) (content : Option String) :
    FileSystem :=
  fun p => if p = path then content else fs p

/-- The world the worker thread runs in. -/
structure World where
  /-- the manager object -/
  m : ConnectionManager
  /-- calls made so far, oldest first -/
  trace : List Event
  /-- the file system -/
  fs : FileSystem
  /-- the value `GetLastError` returns -/
  lastError : Nat
  /-- at each read of the cancellation flag: has the foreground run the
  assignment of `Stop` since the previous read? -/
  stopRequests : Script Bool
  /-- results of `m_vpnList.GetNextServer`, `none` for an exception -/
  nextServers : Script (Option ServerEntry)
  /-- results of `m_vpnList.GetList` -/
  serverLists : Script (List ServerEntry)
  /-- responses of `HTTPSRequest::GetRequest`, `none` when it returns false -/
  httpsResponses : Script (Option String)
  /-- results of `GetVersionEx`: `none` when it fails, else (major, minor) -/
  osVersions : Script (Option (Nat × Nat))
  /-- results of `m_vpnConnection.Establish` -/
  vpnEstablishResults : Script Bool
  /-- values of `m_vpnConnection.GetState` at successive reads -/
  vpnStates : Script VPNConnectionState
  /-- results of the 100 ms waits on the state change event -/
  waitResults : Script WaitResult
  /-- values of `rand` -/
  rands : Script Nat
  /-- values of `m_vpnConnection.GetLastVPNErrorCode` -/
  vpnErrorCodes : Script Nat
  /-- values of `m_vpnConnection.GetPPPIPAddress` -/
  pppIPAddresses : Script String
  /-- results of `m_sshConnection.Connect` -/
  sshConnectResults : Script Bool
  /-- results of `m_sshConnection.WaitForConnected` -/
  sshWaitForConnectedResults : Script Bool
  /-- results of `GetModuleFileName`, `none` when it fails -/
  moduleFileNames : Script (Option String)
  /-- does the next `DeleteFile` fail for a reason other than a missing file? -/
  deleteFaults : Script Bool
  /-- does the next `MoveFile` fail? -/
  moveFaults : Script Bool
  /-- does the next `CreateFile` fail? -/
  createFaults : Script Bool
  /-- the next `WriteFile`: its return value and the number of bytes written -/
  writeResults : Script (Bool × Nat)
  /-- does the next `FlushFileBuffers` fail? -/
  flushFaults : Script Bool
  /-- does the next `CopyFile` fail? -/
  copyFaults : Script Bool

/-! ## The result monad: normal return, `Abort`, `TryNextServer` -/

/-- How a call ends: it returns, it throws `Abort` or `TryNextServer`, or the
loop bound of the embedding was reached. -/
inductive Result (α : Type)
  | ok (a : α)
  | Abort
  | TryNextServer
  | outOfFuel
deriving DecidableEq, Repr

/-- A program of the worker thread. -/
def M (α : Type) := World → Result α × World

/-- Return a value. -/
def M.pure {α : Type} (a : α) : M α := fun w => (Result.ok a, w)

/-- Run `x`, then `f` on its value; an exception of `x` skips `f`. -/
def M.bind {α β : Type} (x : M α) (f : α → M β) : M β := fun w =>
  match x w with
  | (Result.ok a, w1) => f a w1
  | (Result.Abort, w1) => (Result.Abort, w1)
  | (Result.TryNextServer, w1) => (Result.TryNextServer, w1)
  | (Result.outOfFuel, w1) => (Result.outOfFuel, w1)

instance : Monad M where
  pure := M.pure
  bind := M.bind

/-- The statement `throw Abort()`. -/
def throwAbort {α : Type} : M α := fun w => (Result.Abort, w)

/-- The statement `throw TryNextServer()`. -/
def throwTryNextServer {α : Type} : M α := fun w => (Result.TryNextServer, w)

/-- The loop bound of the embedding is reached. -/
def outOfFuel {α : Type} : M α := fun w => (Result.outOfFuel, w)

/-- The block `try body catch (TryNextServer&) handler`. -/
def catchTryNextServer {α : Type} (body handler : M α) : M α := fun w =>
  match body w with
  | (Result.TryNextServer, w1) => handler w1
  | r => r

/-- Record a call in the trace. -/
def emit (e : Event) : M Unit := fun w =>
  (Result.ok (), { w with trace := w.trace ++ [e] })

/-! ## Primitive operations of the manager and its collaborators -/

/-- Modelled from the spec: `GetUserSignalledStop` is declared in
`connectionmanager.h`, not in the sources; it reads the cancellation flag.  The
flag is written by the foreground thread without a lock: the assignment
`m_userSignalledStop = true` of `Stop` lands before this read when the script
says so. -/
def GetUserSignalledStop : M Bool := fun w =>
  let flag := w.m.m_userSignalledStop || w.stopRequests.head
  (Result.ok flag,
    { w with m := { w.m with m_userSignalledStop := flag },
             stopRequests := w.stopRequests.tail })

/-- Modelled from the spec: `SetState` is declared in `connectionmanager.h`, not
in the sources; it assigns the single state value `m_state`. -/
def SetState (state : ConnectionManagerState) : M Unit := fun w =>
  (Result.ok (),
    { w with m := { w.m with m_state := state },
             trace := w.trace ++ [Event.SetState state] })

/-- The call `m_vpnList.GetNextServer()`; `none` stands for an exception. -/
def vpnList_GetNextServer : M (Option ServerEntry) := fun w =>
  (Result.ok w.nextServers.head,
    { w with nextServers := w.nextServers.tail,
             trace := w.trace ++ [Event.GetNextServer w.nextServers.head] })

/-- The call `m_vpnList.GetList()`. -/
def vpnList_GetList : M (List ServerEntry) := fun w =>
  (Result.ok w.serverLists.head,
    { w with serverLists := w.serverLists.tail,
             trace := w.trace ++ [Event.GetList w.serverLists.head] })

/-- The method `MarkCurrentServerFailed`. -/
def MarkCurrentServerFailed : M Unit := emit Event.MarkCurrentServerFailed

/-- The method `RemoveVPNConnection`. -/
def RemoveVPNConnection : M Unit := emit Event.RemoveVPNConnection

/-- The method `SSHDisconnect`. -/
def SSHDisconnect : M Unit := emit Event.SSHDisconnect

/-- The method `SSHWaitAndDisconnect`. -/
def SSHWaitAndDisconnect : M Unit := emit Event.SSHWaitAndDisconnect

/-- The function `TweakVPN`; its result is ignored. -/
def TweakVPN : M Unit := emit Event.TweakVPN

/-- The function `TweakDNS`; its result is ignored. -/
def TweakDNS : M Unit := emit Event.TweakDNS

/-- The function `Sleep`. -/
def Sleep (milliseconds : Nat) : M Unit := emit (Event.Sleep milliseconds)

/-- The function `rand`. -/
def rand : M Nat := fun w =>
  (Result.ok w.rands.head, { w with rands := w.rands.tail })

/-- The current session record. -/
def getSession : M SessionInfo := fun w => (Result.ok w.m.m_currentSessionInfo, w)

/-- Assign the current session record. -/
def setSession (s : SessionInfo) : M Unit := fun w =>
  (Result.ok (), { w with m := { w.m with m_currentSessionInfo := s } })

/-- The method `OpenHomePages`. -/
def OpenHomePages : M Unit := fun w =>
  (Result.ok (),
    { w with trace := w.trace ++ [Event.OpenBrowser w.m.m_currentSessionInfo.homepages] })

/-- The call `HTTPSRequest::GetRequest` on a server; `none` when it returns
false. -/
def GetRequest (serverEntry : ServerEntry) (requestPath : String) :
    M (Option String) := fun w =>
  (Result.ok w.httpsResponses.head,
    { w with httpsResponses := w.httpsResponses.tail,
             trace := w.trace ++ [Event.GetRequest serverEntry.serverAddress
               serverEntry.webServerPort serverEntry.webServerCertificate requestPath
               w.httpsResponses.head.isSome] })

/-- The call `GetVersionEx`: `none` when it fails, else (major, minor). -/
def GetVersionEx : M (Option (Nat × Nat)) := fun w =>
  (Result.ok w.osVersions.head,
    { w with osVersions := w.osVersions.tail,
             trace := w.trace ++ [Event.GetVersionEx] })

/-- The method `GetVPNConnectionState`. -/
def GetVPNConnectionState : M VPNConnectionState := fun w =>
  (Result.ok w.vpnStates.head, { w with vpnStates := w.vpnStates.tail })

/-- The 100 ms wait on the state change event of the VPN connection. -/
def WaitForSingleObject (milliseconds : Nat) : M WaitResult := fun w =>
  (Result.ok w.waitResults.head,
    { w with waitResults := w.waitResults.tail,
             trace := w.trace ++ [Event.WaitForSingleObject milliseconds] })

/-- The method `VPNEstablish`. -/
def VPNEstablish : M Unit := fun w =>
  let w1 : World :=
    { w with vpnEstablishResults := w.vpnEstablishResults.tail,
             trace := w.trace ++ [Event.VPNEstablish
               w.m.m_currentSessionInfo.serverEntry.serverAddress
               w.m.m_currentSessionInfo.psk w.vpnEstablishResults.head] }
  if !w.vpnEstablishResults.head then
    -- This is a local error, we should not try the next server
    (Result.Abort, w1)
  else
    (Result.ok (), w1)

/-- The method `SSHConnect`. -/
def SSHConnect (sshServerAddress sshServerPort sshServerPublicKey sshUsername
    sshPassword : String) : M Bool := fun w =>
  (Result.ok w.sshConnectResults.head,
    { w with sshConnectResults := w.sshConnectResults.tail,
             trace := w.trace ++ [Event.SSHConnect sshServerAddress sshServerPort
               sshServerPublicKey sshUsername sshPassword w.sshConnectResults.head] })

/-- The method `SSHWaitForConnected`. -/
def SSHWaitForConnected : M Bool := fun w =>
  (Result.ok w.sshWaitForConnectedResults.head,
    { w with sshWaitForConnectedResults := w.sshWaitForConnectedResults.tail,
             trace := w.trace ++ [Event.SSHWaitForConnected
               w.sshWaitForConnectedResults.head] })

/-- The query part shared by the request paths. -/
def requestQuery (cfg : Config) (clientVersion webServerSecret : String) : String :=
  "?propagation_channel_id=" ++ cfg.PROPAGATION_CHANNEL_ID ++
  "&sponsor_id=" ++ cfg.SPONSOR_ID ++
  "&client_version=" ++ clientVersion ++
  "&server_secret=" ++ webServerSecret

/-- The method `GetConnectRequestPath`. -/
def GetConnectRequestPath (cfg : Config) : M String := fun w =>
  (Result.ok (cfg.HTTP_CONNECTED_REQUEST_PATH ++
      requestQuery cfg cfg.CLIENT_VERSION
        w.m.m_currentSessionInfo.serverEntry.webServerSecret ++
      "&vpn_client_ip_address=" ++ w.pppIPAddresses.head),
    { w with pppIPAddresses := w.pppIPAddresses.tail })

/-- The method `GetFailedRequestPath`. -/
def GetFailedRequestPath (cfg : Config) : M String := fun w =>
  (Result.ok (cfg.HTTP_FAILED_REQUEST_PATH ++
      requestQuery cfg cfg.CLIENT_VERSION
        w.m.m_currentSessionInfo.serverEntry.webServerSecret ++
      "&error_code=" ++ toString w.vpnErrorCodes.head),
    { w with vpnErrorCodes := w.vpnErrorCodes.tail })

/-! ## File operations used by the upgrade -/

/-- The Windows error code `ERROR_FILE_NOT_FOUND`. -/
def ERROR_FILE_NOT_FOUND : Nat := 2

/-- The Windows error code `ERROR_ACCESS_DENIED`, the error of an injected fault. -/
def ERROR_ACCESS_DENIED : Nat := 5

/-- The Windows error code `ERROR_ALREADY_EXISTS`. -/
def ERROR_ALREADY_EXISTS : Nat := 183

/-- The first `n` bytes of `s`. -/
def takeBytes (s : String) (n : Nat) : String := ⟨s.data.take n⟩

/-- The call `GetModuleFileName`: the path of the running binary, `none` when
the call fails. -/
def GetModuleFileName : M (Option String) := fun w =>
  (Result.ok w.moduleFileNames.head, { w with moduleFileNames := w.moduleFileNames.tail })

/-- The call `GetLastError`. -/
def GetLastError : M Nat := fun w => (Result.ok w.lastError, w)

/-- The call `DeleteFile`: fails on a fault or when the file is missing. -/
def DeleteFile (path : String) : M Bool := fun w =>
  let w1 : World := { w with deleteFaults := w.deleteFaults.tail }
  if w.deleteFaults.head then
    (Result.ok false, { w1 with lastError := ERROR_ACCESS_DENIED,
                                trace := w.trace ++ [Event.DeleteFile path false] })
  else if w.fs path = none then
    (Result.ok false, { w1 with lastError := ERROR_FILE_NOT_FOUND,
                                trace := w.trace ++ [Event.DeleteFile path false] })
  else
    (Result.ok true, { w1 with fs := w.fs.write path none,
                               trace := w.trace ++ [Event.DeleteFile path true] })

/-- The call `MoveFile`: a rename; fails on a fault, when the source is missing
or when the target exists. -/
def MoveFile (source target : String) : M Bool := fun w =>
  let w1 : World := { w with moveFaults := w.moveFaults.tail }
  if w.moveFaults.head then
    (Result.ok false, { w1 with lastError := ERROR_ACCESS_DENIED,
                                trace := w.trace ++ [Event.MoveFile source target false] })
  else if w.fs source = none then
    (Result.ok false, { w1 with lastError := ERROR_FILE_NOT_FOUND,
                                trace := w.trace ++ [Event.MoveFile source target false] })
  else if w.fs target ≠ none then
    (Result.ok false, { w1 with lastError := ERROR_ALREADY_EXISTS,
                                trace := w.trace ++ [Event.MoveFile source target false] })
  else
    (Result.ok true, { w1 with fs := (w.fs.write source none).write target (w.fs source),
                               trace := w.trace ++ [Event.MoveFile source target true] })

/-- The call `CreateFile` with `CREATE_ALWAYS`: an empty file at `path`; the
result tells whether the handle is valid. -/
def CreateFile (path : String) : M Bool := fun w =>
  let w1 : World := { w with createFaults := w.createFaults.tail }
  if w.createFaults.head then
    (Result.ok false, { w1 with lastError := ERROR_ACCESS_DENIED,
                                trace := w.trace ++ [Event.CreateFile path false] })
  else
    (Result.ok true, { w1 with fs := w.fs.write path (some ""),
                               trace := w.trace ++ [Event.CreateFile path true] })

/-- The call `WriteFile` on the file created at `path`: its return value and
the number of bytes written, which are then in the file. -/
def WriteFile (path : String) (data : String) : M (Bool × Nat) := fun w =>
  let ok := w.writeResults.head.1
  let written := min w.writeResults.head.2 data.length
  (Result.ok (ok, written),
    { w with writeResults := w.writeResults.tail,
             fs := w.fs.write path (some (takeBytes data written)),
             trace := w.trace ++ [Event.WriteFile path ok written] })

/-- The call `FlushFileBuffers`. -/
def FlushFileBuffers (path : String) : M Bool := fun w =>
  (Result.ok (!w.flushFaults.head),
    { w with flushFaults := w.flushFaults.tail,
             trace := w.trace ++ [Event.FlushFileBuffers path (!w.flushFaults.head)] })

/-- The call `CopyFile` with overwrite allowed: fails on a fault or when the
source is missing. -/
def CopyFile (source target : String) : M Bool := fun w =>
  let w1 : World := { w with copyFaults := w.copyFaults.tail }
  if w.copyFaults.head then
    (Result.ok false, { w1 with lastError := ERROR_ACCESS_DENIED,
                                trace := w.trace ++ [Event.CopyFile source target false] })
  else if w.fs source = none then
    (Result.ok false, { w1 with lastError := ERROR_FILE_NOT_FOUND,
                                trace := w.trace ++ [Event.CopyFile source target false] })
  else
    (Result.ok true, { w1 with fs := w.fs.write target (w.fs source),
                               trace := w.trace ++ [Event.CopyFile source target true] })

/-! ## The upgrade -/

/-- The `try` block of `DoUpgrade`.  The result is `(thrown, bArchiveCreated)`:
whether a `std::exception` left the block and the flag at that point. -/
def DoUpgrade.tryBlock (filename archive_filename download : String) :
    M (Bool × Bool) := do
  let deleted ← DeleteFile archive_filename
  let error ← GetLastError
  if !deleted && error != ERROR_FILE_NOT_FOUND then
    pure (true, false)
  else
    let moved ← MoveFile filename archive_filename
    if !moved then
      pure (true, false)
    else
      -- bArchiveCreated = true
      let file ← CreateFile filename
      if !file then
        pure (true, true)
      else
        let (ok, written) ← WriteFile filename download
        if !ok || written != download.length then
          pure (true, true)
        else
          let flushed ← FlushFileBuffers filename
          if !flushed then
            pure (true, true)
          else
            pure (false, true)

/-- The method `DoUpgrade`. -/
def DoUpgrade (download : String) : M Bool := do
  -- Find current process binary path
  let filename ← GetModuleFileName
  match filename with
  | none =>
    -- Abort upgrade: Establish() will proceed.
    pure false
  | some filename =>
    -- Rename current binary to archive name
    let archive_filename := filename ++ ".orig"
    let (thrown, bArchiveCreated) ← DoUpgrade.tryBlock filename archive_filename download
    if thrown then
      -- Try to restore the original version
      if bArchiveCreated then
        let _ ← CopyFile archive_filename filename
        -- Abort upgrade: Establish() will proceed.
        pure false
      else
        pure false
    else
      emit Event.SuspendTeardownForUpgrade
      -- Die and respawn
      emit (Event.ShellExecute filename)
      emit Event.PostMessageQuit
      pure true


/-! ## The session functions -/

/-- The method `LoadNextServer`: the selected server and the handshake request
path. -/
def LoadNextServer (cfg : Config) : M (ServerEntry × String) := do
  -- Try the next server in our list.
  let next ← vpnList_GetNextServer
  match next with
  | none => throwAbort
  | some serverEntry =>
    -- Current session holds server entry info
    setSession (SessionInfo.Set serverEntry)
    let session ← getSession
    let handshakeRequestPath := cfg.HTTP_HANDSHAKE_REQUEST_PATH ++
      requestQuery cfg cfg.CLIENT_VERSION session.serverEntry.webServerSecret
    -- Include a list of known server IP addresses in the request query string
    let serverEntries ← vpnList_GetList
    pure (serverEntry,
      serverEntries.foldl (fun path ii => path ++ "&known_server=" ++ ii.serverAddress)
        handshakeRequestPath)

/-- The method `HandleHandshakeResponse`.  An exception of `AddEntriesToList`
is caught and logged there, so the call is only recorded. -/
def HandleHandshakeResponse (cfg : Config) (handshakeResponse : String) : M Unit := do
  match cfg.ParseHandshakeResponse handshakeResponse with
  | none => throwTryNextServer
  | some parsed =>
    let session ← getSession
    setSession (session.load parsed)
    emit (Event.AddEntriesToList parsed.discoveredServerEntries)

/-- The method `RequireUpgrade`: the download request path when an upgrade is
required, `none` when the method returns false. -/
def RequireUpgrade (cfg : Config) : M (Option String) := do
  let session ← getSession
  if session.upgradeVersion.length > 0 then
    pure (some (cfg.HTTP_DOWNLOAD_REQUEST_PATH ++
      requestQuery cfg session.upgradeVersion session.serverEntry.webServerSecret))
  else
    pure none

/-! ## The transports -/

/-- The method `WaitForVPNConnectionStateToChangeFrom`; `fuel` bounds the
number of polling iterations. -/
def WaitForVPNConnectionStateToChangeFrom (state : VPNConnectionState) : Nat → M Unit
  | 0 => outOfFuel
  | fuel + 1 => do
    let current ← GetVPNConnectionState
    if state = current then
      -- Wait for RasDialCallback to set a new state, or timeout
      let result ← WaitForSingleObject 100
      let stop ← GetUserSignalledStop
      if stop || result = WaitResult.WAIT_FAILED || result = WaitResult.WAIT_ABANDONED then
        throwAbort
      else
        WaitForVPNConnectionStateToChangeFrom state fuel
    else
      pure ()

/-- The minimum version check of `DoVPNConnection`: true when it fails. -/
def versionCheckFails (versionInfo : Option (Nat × Nat)) : Bool :=
  match versionInfo with
  | none => true
  | some (dwMajorVersion, dwMinorVersion) =>
    dwMajorVersion < 5 || (dwMajorVersion == 5 && dwMinorVersion == 0)

/-- The branch of `DoVPNConnection` taken when the negotiation did not end
connected: report, back off, throw `TryNextServer`. -/
def DoVPNConnection.failed (cfg : Config) (serverEntry : ServerEntry) : M Unit := do
  -- Report error code to server for logging/trouble-shooting.
  let requestPath ← GetFailedRequestPath cfg
  let _ ← GetRequest serverEntry requestPath
  -- Wait between 1 and 5 seconds before retrying.
  let r ← rand
  Sleep (1000 + r % 4000)
  throwTryNextServer

/-- The rest of `DoVPNConnection` once the state `CONNECTED_VPN` is set. -/
def DoVPNConnection.connected (cfg : Config) (fuel : Nat) (serverEntry : ServerEntry) :
    M Unit := do
  -- Patch DNS bug on Windows XP; and flush DNS
  TweakDNS
  -- Open home pages in browser
  OpenHomePages
  -- "Connected" HTTPS request for server stats (not critical to succeed)
  let connectedRequestPath ← GetConnectRequestPath cfg
  let _ ← GetRequest serverEntry connectedRequestPath
  -- Wait for VPN connection to stop (or fail)
  WaitForVPNConnectionStateToChangeFrom VPNConnectionState.CONNECTED fuel
  SetState ConnectionManagerState.STOPPED

/-- The function `DoVPNConnection`; `fuel` bounds each of its two waits. -/
def DoVPNConnection (cfg : Config) (fuel : Nat) (serverEntry : ServerEntry) : M Unit := do
  -- Minimum version check for VPN
  let versionInfo ← GetVersionEx
  if versionCheckFails versionInfo then
    throwAbort
  else
    -- Check VPN services and fix if required/possible
    TweakVPN
    -- Start VPN connection
    VPNEstablish
    -- Monitor VPN connection and wait for CONNECTED or FAILED
    WaitForVPNConnectionStateToChangeFrom VPNConnectionState.STARTING fuel
    let current ← GetVPNConnectionState
    if VPNConnectionState.CONNECTED ≠ current then
      DoVPNConnection.failed cfg serverEntry
    else
      SetState ConnectionManagerState.CONNECTED_VPN
      DoVPNConnection.connected cfg fuel serverEntry

/-- The function `DoSSHConnection`. -/
def DoSSHConnection : M Unit := do
  -- TEMP
  let hostKey := "<base64>=="
  let connected ← SSHConnect "1.1.1.1" "22" hostKey "psiphonv" "<password>"
  let confirmed ← if connected then SSHWaitForConnected else pure false
  if !confirmed then
    let stop ← GetUserSignalledStop
    if stop then
      throwAbort
    else
      throwTryNextServer
  else
    SetState ConnectionManagerState.CONNECTED_SSH
    -- Open home pages in browser
    OpenHomePages
    -- Wait for SSH connection to stop (or fail)
    SSHWaitAndDisconnect
    SetState ConnectionManagerState.STOPPED

/-! ## The worker thread -/

/-- The handshake section of the loop body: the selected server, once its
handshake response is handled. -/
def ConnectionManagerStartThread.handshake (cfg : Config) : M ServerEntry := do
  let (serverEntry, handshakeRequestPath) ← LoadNextServer cfg
  let handshakeResponse ← GetRequest serverEntry handshakeRequestPath
  match handshakeResponse with
  | none =>
    let stop ← GetUserSignalledStop
    if stop then
      throwAbort
    else
      throwTryNextServer
  | some handshakeResponse =>
    HandleHandshakeResponse cfg handshakeResponse
    pure serverEntry

/-- The upgrade section of the loop body: true when the thread returns because
the upgrade succeeded. -/
def ConnectionManagerStartThread.upgrade (cfg : Config) (serverEntry : ServerEntry) :
    M Bool := do
  -- Upgrade now if handshake notified of new version
  let downloadRequestPath ← RequireUpgrade cfg
  match downloadRequestPath with
  | none => pure false
  | some downloadRequestPath =>
    -- Download new binary
    let downloadResponse ← GetRequest serverEntry downloadRequestPath
    match downloadResponse with
    | none =>
      let stop ← GetUserSignalledStop
      if stop then
        throwAbort
      else
        -- else fall through to Establish()
        pure false
    | some downloadResponse =>
      -- Perform upgrade.
      DoUpgrade downloadResponse

/-- The transport section of the loop body: the VPN attempt and, when it throws
`TryNextServer`, the SSH attempt. -/
def ConnectionManagerStartThread.connect (cfg : Config) (waitFuel : Nat)
    (serverEntry : ServerEntry) : M Unit :=
  catchTryNextServer
    (DoVPNConnection cfg waitFuel serverEntry)
    (do
      -- When the VPN attempt fails, establish SSH connection
      RemoveVPNConnection
      DoSSHConnection)

/-- The loop body after the handshake section: the upgrade section and,
unless the thread returns, the transport section.  True when the thread
returns, false when the loop is left by `break`. -/
def ConnectionManagerStartThread.upgradeAndConnect (cfg : Config) (waitFuel : Nat)
    (serverEntry : ServerEntry) : M Bool := do
  let upgraded ← ConnectionManagerStartThread.upgrade cfg serverEntry
  if upgraded then
    -- NOTE: state will remain INITIALIZING.  The app is terminating.
    pure true
  else
    ConnectionManagerStartThread.connect cfg waitFuel serverEntry
    pure false

/-- The body of the outer `try` of the loop: true when the thread returns from
inside it, false when it leaves it by `break`. -/
def ConnectionManagerStartThread.tryBody (cfg : Config) (waitFuel : Nat) : M Bool := do
  let serverEntry ← ConnectionManagerStartThread.handshake cfg
  ConnectionManagerStartThread.upgradeAndConnect cfg waitFuel serverEntry

/-- The handler `catch (Abort&)` of the loop. -/
def ConnectionManagerStartThread.catchAbort : M Unit := do
  RemoveVPNConnection
  SSHDisconnect
  SetState ConnectionManagerState.STOPPED

/-- The handler `catch (TryNextServer&)` of the loop. -/
def ConnectionManagerStartThread.catchTryNextServer : M Unit := do
  RemoveVPNConnection
  SSHDisconnect
  MarkCurrentServerFailed

/-- The thread function `ConnectionManagerStartThread`: `fuel` bounds the
number of servers tried, `waitFuel` the polling iterations of each wait. -/
def ConnectionManagerStartThread (cfg : Config) (waitFuel : Nat) : Nat → M Unit
  | 0 => outOfFuel
  | fuel + 1 => fun w =>
    match ConnectionManagerStartThread.tryBody cfg waitFuel w with
    | (Result.ok _, w1) => (Result.ok (), w1)
    | (Result.Abort, w1) => ConnectionManagerStartThread.catchAbort w1
    | (Result.TryNextServer, w1) =>
      -- Continue while loop to try next server
      ConnectionManagerStartThread cfg waitFuel fuel
        (ConnectionManagerStartThread.catchTryNextServer w1).2
    | (Result.outOfFuel, w1) => (Result.outOfFuel, w1)


/-! ## Concrete worlds for the examples -/

/-- A server of the examples. -/
def exampleServer (address : String) : ServerEntry :=
  { serverAddress := address, webServerPort := 443, webServerSecret := "secret",
    webServerCertificate := "cert" }

/-- A configuration for the examples: the response "up" announces the upgrade
version "2", the response "bad" does not parse, every other response parses
with no upgrade. -/
def exampleConfig : Config :=
  { HTTP_HANDSHAKE_REQUEST_PATH := "/handshake",
    HTTP_CONNECTED_REQUEST_PATH := "/connected",
    HTTP_FAILED_REQUEST_PATH := "/failed",
    HTTP_DOWNLOAD_REQUEST_PATH := "/download",
    PROPAGATION_CHANNEL_ID := "P",
    SPONSOR_ID := "S",
    CLIENT_VERSION := "1",
    ParseHandshakeResponse := fun response =>
      if response = "bad" then none
      else some { psk := "psk", homepages := ["home"],
                  upgradeVersion := if response = "up" then "2" else "",
                  discoveredServerEntries := [] } }

/-- The manager as the constructor leaves it. -/
def ConnectionManager.new : ConnectionManager :=
  { m_state := ConnectionManagerState.STOPPED, m_userSignalledStop := false,
    m_thread := none, m_currentSessionInfo := SessionInfo.Set (exampleServer "") }

/-- A world in which a worker was just started, nothing is cancelled, the
directory is exhausted, every request, transport and file operation fails, and
the running binary "app.exe" holds "old". -/
def World.quiet : World :=
  { m := { ConnectionManager.new with m_state := ConnectionManagerState.STARTING },
    trace := [],
    fs := fun p => if p = "app.exe" then some "old" else none,
    lastError := 0,
    stopRequests := Script.const false,
    nextServers := Script.const none,
    serverLists := Script.const [],
    httpsResponses := Script.const none,
    osVersions := Script.const (some (6, 1)),
    vpnEstablishResults := Script.const true,
    vpnStates := Script.const VPNConnectionState.FAILED,
    waitResults := Script.const WaitResult.WAIT_TIMEOUT,
    rands := Script.const 0,
    vpnErrorCodes := Script.const 0,
    pppIPAddresses := Script.const "10.0.0.2",
    sshConnectResults := Script.const false,
    sshWaitForConnectedResults := Script.const false,
    moduleFileNames := Script.const (some "app.exe"),
    deleteFaults := Script.const false,
    moveFaults := Script.const false,
    createFaults := Script.const false,
    writeResults := Script.const (true, 1000000),
    flushFaults := Script.const false,
    copyFaults := Script.const false }


/-! ## The lifecycle: `Toggle`, `Start`, `Stop` and the worker threads -/

/-- The manager in its world together with the worker threads: `live` holds
the handles of the threads that have not returned yet. -/
structure System where
  world : World
  live : List Nat
  nextHandle : Nat

/-- The manager of a system. -/
def System.m (s : System) : ConnectionManager := s.world.m

/-- The constructor `ConnectionManager::ConnectionManager` run in a world with
no worker thread. -/
def System.fresh (w : World) : System :=
  { world := { w with m := { w.m with m_state := ConnectionManagerState.STOPPED,
                                      m_userSignalledStop := false,
                                      m_thread := none } },
    live := [],
    nextHandle := 0 }

/-- The method `Stop`.  The wait on `m_thread` returns once that thread has
returned; `final` is the last value the thread writes to `m_state` while `Stop`
waits, if it writes any. -/
def Stop (final : Option ConnectionManagerState) (s : System) : System :=
  -- Cancel flag is also termination flag
  let w1 : World := { s.world with m := { s.world.m with m_userSignalledStop := true } }
  -- Wait for thread to exit
  match w1.m.m_thread with
  | some thread =>
    let state :=
      if thread ∈ s.live then final.getD w1.m.m_state else w1.m.m_state
    { s with world := { w1 with m := { w1.m with m_state := state, m_thread := none },
                                trace := w1.trace ++ [Event.WaitForThread thread] },
             live := s.live.erase thread }
  | none => { s with world := w1 }

/-- The method `Start`; `spawnOk` tells whether `CreateThread` succeeds. -/
def Start (final : Option ConnectionManagerState) (spawnOk : Bool) (s : System) : System :=
  -- Call Stop to cleanup in case thread failed on last Start attempt
  let s1 := Stop final s
  let w1 : World := { s1.world with m := { s1.world.m with m_userSignalledStop := false } }
  if w1.m.m_state ≠ ConnectionManagerState.STOPPED ∨ w1.m.m_thread ≠ none then
    { s1 with world := w1 }
  else
    let w2 := (SetState ConnectionManagerState.STARTING w1).2
    if spawnOk then
      { world := { w2 with m := { w2.m with m_thread := some s1.nextHandle },
                           trace := w2.trace ++ [Event.CreateThread (some s1.nextHandle)] },
        live := s1.nextHandle :: s1.live,
        nextHandle := s1.nextHandle + 1 }
    else
      let w3 : World :=
        { w2 with m := { w2.m with m_thread := none },
                  trace := w2.trace ++ [Event.CreateThread none] }
      { s1 with world := (SetState ConnectionManagerState.STOPPED w3).2 }

/-- The method `Toggle`. -/
def Toggle (final : Option ConnectionManagerState) (spawnOk : Bool) (s : System) : System :=
  if s.world.m.m_state = ConnectionManagerState.STOPPED then
    Start final spawnOk s
  else
    Stop final s

/-- The steps of the lifecycle: the three foreground calls, a write of
`m_state` by a worker thread, and the return of a worker thread. -/
inductive Action
  | Toggle (final : Option ConnectionManagerState) (spawnOk : Bool)
  | Start (final : Option ConnectionManagerState) (spawnOk : Bool)
  | Stop (final : Option ConnectionManagerState)
  | WorkerSetState (thread : Nat) (state : ConnectionManagerState)
  | WorkerExit (thread : Nat)
deriving DecidableEq, Repr

/-- One step of the lifecycle.  A thread that is not live does nothing. -/
def step (s : System) : Action → System
  | Action.Toggle final spawnOk => Toggle final spawnOk s
  | Action.Start final spawnOk => Start final spawnOk s
  | Action.Stop final => Stop final s
  | Action.WorkerSetState thread state =>
    if thread ∈ s.live then { s with world := (SetState state s.world).2 } else s
  | Action.WorkerExit thread => { s with live := s.live.erase thread }

/-- The system after a sequence of steps. -/
def run (s : System) (actions : List Action) : System := actions.foldl step s


/-- The lifecycle invariant: a live worker is the one `m_thread` refers to. -/
def LifecycleInv (s : System) : Prop :=
  s.live = [] ∨ ∃ thread, s.live = [thread] ∧ s.world.m.m_thread = some thread

/-- A system with no live worker and no handle whose state is still `STARTING`,
as a worker that returned after a successful upgrade leaves it. -/
def exampleStartingSystem : System :=
  { world := World.quiet, live := [], nextHandle := 1 }

/-- A world in which the cancellation flag is already set and the VPN state
has already left `STARTING` (it is `FAILED`). -/
def exampleCancelledWorld : World :=
  { World.quiet with m := { World.quiet.m with m_userSignalledStop := true } }

/-- A world in which the cancellation flag is set and the VPN state stays
`STARTING`. -/
def exampleCancelledStartingWorld : World :=
  { World.quiet with m := { World.quiet.m with m_userSignalledStop := true },
                     vpnStates := Script.const VPNConnectionState.STARTING }

/-- A world in which `CreateFile` fails. -/
def exampleCreateFaultWorld : World :=
  { World.quiet with createFaults := Script.const true }

/-! ## Vocabulary of the statements about the worker -/

/-- Selections and failure marks: the calls that rotate the directory. -/
def Event.isRotation : Event → Bool
  | Event.GetNextServer _ => true
  | Event.MarkCurrentServerFailed => true
  | _ => false

/-- Every run of `x` only appends calls that do not rotate the directory. -/
def Quiet {α : Type} (x : M α) : Prop :=
  ∀ w, ∃ events, (x w).2.trace = w.trace ++ events ∧ ∀ e ∈ events, Event.isRotation e = false

/-- The handshake request path `LoadNextServer` builds for the server `s` when
`GetList` returns `known`. -/
def handshakeRequestPath (cfg : Config) (s : ServerEntry) (known : List ServerEntry) : String :=
  known.foldl (fun path ii => path ++ "&known_server=" ++ ii.serverAddress)
    (cfg.HTTP_HANDSHAKE_REQUEST_PATH ++ requestQuery cfg cfg.CLIENT_VERSION s.webServerSecret)

/-- The world after the handshake section selected `s` and its response parsed
to `parsed`. -/
def afterHandshake (cfg : Config) (w : World) (s : ServerEntry)
    (parsed : HandshakeResponse) : World :=
  { w with m := { w.m with m_currentSessionInfo := (SessionInfo.Set s).load parsed },
           nextServers := w.nextServers.tail,
           serverLists := w.serverLists.tail,
           httpsResponses := w.httpsResponses.tail,
           trace := w.trace ++
             [Event.GetNextServer (some s),
              Event.GetList w.serverLists.head,
              Event.GetRequest s.serverAddress s.webServerPort s.webServerCertificate
                (handshakeRequestPath cfg s w.serverLists.head) true,
              Event.AddEntriesToList parsed.discoveredServerEntries] }

/-- The world after the download request for `s` failed with the cancellation
flag not set: one more request was made, nothing else happened. -/
def afterFailedDownload (cfg : Config) (w : World) (s : ServerEntry) : World :=
  { w with m := { w.m with m_userSignalledStop := false },
           httpsResponses := w.httpsResponses.tail,
           stopRequests := w.stopRequests.tail,
           trace := w.trace ++
             [Event.GetRequest s.serverAddress s.webServerPort s.webServerCertificate
                (cfg.HTTP_DOWNLOAD_REQUEST_PATH ++
                  requestQuery cfg w.m.m_currentSessionInfo.upgradeVersion
                    w.m.m_currentSessionInfo.serverEntry.webServerSecret) false] }

/-- The world after the version check passed and `VPNEstablish` succeeded. -/
def afterVPNEstablish (w : World) : World :=
  { w with osVersions := w.osVersions.tail,
           vpnEstablishResults := w.vpnEstablishResults.tail,
           trace := w.trace ++
             [Event.GetVersionEx, Event.TweakVPN,
              Event.VPNEstablish w.m.m_currentSessionInfo.serverEntry.serverAddress
                w.m.m_currentSessionInfo.psk true] }

/-- The world after the state read that follows the first wait found
`CONNECTED` and the state `CONNECTED_VPN` was set. -/
def afterConnected (w : World) : World :=
  { w with m := { w.m with m_state := ConnectionManagerState.CONNECTED_VPN },
           vpnStates := w.vpnStates.tail,
           trace := w.trace ++ [Event.SetState ConnectionManagerState.CONNECTED_VPN] }

/-- A world in which the handshake with "10.0.0.1" fails and the handshake with
"10.0.0.2" succeeds. -/
def exampleFailoverWorld : World :=
  { World.quiet with
    nextServers := Script.prepend
      (([exampleServer "10.0.0.1"] ++ [exampleServer "10.0.0.2"]).map some) (Script.const none),
    httpsResponses := Script.prepend
      (([exampleServer "10.0.0.1"].map fun _ => none) ++ [some "ok"]) (Script.const none) }

/-- The world `exampleFailoverWorld` in which the VPN negotiation with
"10.0.0.2" ends connected and the connection stops later. -/
def exampleFailoverConnectedWorld : World :=
  { exampleFailoverWorld with
    vpnStates := Script.prepend [VPNConnectionState.CONNECTED, VPNConnectionState.CONNECTED]
      (Script.const VPNConnectionState.STOPPED) }

/-- A world in which the handshake with "10.0.0.1" announces an upgrade, the
download fails, the VPN negotiation ends connected and the connection stops
later. -/
def exampleUpgradeWorld : World :=
  { World.quiet with
    nextServers := Script.cons (some (exampleServer "10.0.0.1")) (Script.const none),
    httpsResponses := Script.cons (some "up") (Script.const none),
    vpnStates := Script.prepend [VPNConnectionState.CONNECTED, VPNConnectionState.CONNECTED]
      (Script.const VPNConnectionState.STOPPED) }

/-- A world in which the handshake with "10.0.0.1" succeeds, the VPN
negotiation fails and the SSH connection fails. -/
def exampleVPNFailedWorld : World :=
  { World.quiet with
    nextServers := Script.cons (some (exampleServer "10.0.0.1")) (Script.const none),
    httpsResponses := Script.cons (some "ok") (Script.const none) }

/-- The world `exampleVPNFailedWorld` in which the user signals stop, so that
the flag is set when the failed SSH connection is examined. -/
def exampleCancelledSSHWorld : World :=
  { exampleVPNFailedWorld with stopRequests := Script.const true }

/-- The world `exampleUpgradeWorld` in which the user signals stop while the
download is under way. -/
def exampleCancelledDownloadWorld : World :=
  { exampleUpgradeWorld with stopRequests := Script.const true }



/-! ## Vocabulary of the statements about the request paths and the VPN attempt -/

/-- The concatenation of a list of strings, in list order. -/
def concatStrings : List String → String
  | [] => ""
  | s :: rest => s ++ concatStrings rest

/-- The `known_server` query parameters of a list of known servers, one per entry
of the list, in list order. -/
def knownServerParameters (known : List ServerEntry) : List String :=
  known.map fun e => "&known_server=" ++ e.serverAddress

/-- A world in which the directory knows "10.0.0.1" and "10.0.0.2" and selects
"10.0.0.2". -/
def exampleKnownServersWorld : World :=
  { World.quiet with
    nextServers := Script.cons (some (exampleServer "10.0.0.2")) (Script.const none),
    serverLists := Script.const [exampleServer "10.0.0.1", exampleServer "10.0.0.2"] }

/-- The world after a version check that failed: only `GetVersionEx` was called. -/
def afterVersionCheck (w : World) : World :=
  { w with osVersions := w.osVersions.tail,
           trace := w.trace ++ [Event.GetVersionEx] }

/-- A world on Windows 2000 (version 5.0). -/
def exampleWindows2000World : World :=
  { World.quiet with osVersions := Script.const (some (5, 0)) }

/-- The backoff delay of `DoVPNConnection`, in milliseconds, for the value `r`
of `rand`: the argument `1000 + rand()%4000` of `Sleep`. -/
def backoffDelay (r : Nat) : Nat := 1000 + r % 4000

/-- The world after the failed branch of `DoVPNConnection` ran from `w`, the
state read that precedes it included: the failed request was reported and the
backoff delay slept. -/
def afterVPNFailed (cfg : Config) (s : ServerEntry) (w : World) : World :=
  { w with vpnStates := w.vpnStates.tail,
           vpnErrorCodes := w.vpnErrorCodes.tail,
           httpsResponses := w.httpsResponses.tail,
           rands := w.rands.tail,
           trace := w.trace ++
             [Event.GetRequest s.serverAddress s.webServerPort s.webServerCertificate
                (cfg.HTTP_FAILED_REQUEST_PATH ++
                  requestQuery cfg cfg.CLIENT_VERSION
                    w.m.m_currentSessionInfo.serverEntry.webServerSecret ++
                  "&error_code=" ++ toString w.vpnErrorCodes.head)
                w.httpsResponses.head.isSome,
              Event.Sleep (backoffDelay w.rands.head)] }

/-! ## Vocabulary of the statements about the state during a run -/

/-- Whether a call is a `SetState`. -/
def Event.isSetState : Event → Bool
  | Event.SetState _ => true
  | _ => false

/-- Every run of `x` appends no `SetState` call and leaves the state as it was. -/
def Calm {α : Type} (x : M α) : Prop :=
  ∀ w, ∃ events, (x w).2.trace = w.trace ++ events ∧
    (∀ e ∈ events, Event.isSetState e = false) ∧ (x w).2.m.m_state = w.m.m_state

/-- The bind of the do blocks is `M.bind`. -/
@[simp]
theorem bind_eq_M_bind {α β : Type} (x : M α) (f : α → M β) : (x >>= f) = M.bind x f := rfl

/-- The pure of the do blocks is `M.pure`. -/
@[simp]
theorem pure_eq_M_pure {α : Type} (a : α) : (pure a : M α) = M.pure a := rfl

/-! ## Lifecycle -/

/-- After `Stop` there is no live worker and no handle, whenever the invariant
held before. -/
theorem Stop_post (final : Option ConnectionManagerState) (s : System) (h : LifecycleInv s) :
    (Stop final s).live = [] ∧ (Stop final s).world.m.m_thread = none := by
  unfold Stop
  rcases h with h | ⟨thread, hl, ht⟩
  · cases hm : s.world.m.m_thread <;> simp [hm, h]
  · simp [ht, hl]

/-- After `Stop` the handle is empty. -/
theorem Stop_thread (final : Option ConnectionManagerState) (s : System) :
    (Stop final s).world.m.m_thread = none := by
  unfold Stop
  cases hm : s.world.m.m_thread <;> simp [hm]

/-- The method `Start` keeps the invariant. -/
theorem Start_inv (final : Option ConnectionManagerState) (spawnOk : Bool) (s : System)
    (h : LifecycleInv s) : LifecycleInv (Start final spawnOk s) := by
  obtain ⟨hl, ht⟩ := Stop_post final s h
  unfold Start
  simp only [ht]
  by_cases hs : (Stop final s).world.m.m_state = ConnectionManagerState.STOPPED
  · cases spawnOk
    · simp [hs, LifecycleInv, hl, SetState]
    · simp [hs, LifecycleInv, hl, SetState]
  · simp [hs, LifecycleInv, hl]

/-- Every step keeps the invariant. -/
theorem step_inv (s : System) (a : Action) (h : LifecycleInv s) : LifecycleInv (step s a) := by
  cases a with
  | Toggle final spawnOk =>
    simp only [step, Toggle]
    split
    · exact Start_inv final spawnOk s h
    · exact Or.inl (Stop_post final s h).1
  | Start final spawnOk => exact Start_inv final spawnOk s h
  | Stop final => exact Or.inl (Stop_post final s h).1
  | WorkerSetState thread state =>
    simp only [step]
    split
    · rcases h with h | ⟨t, hl, ht⟩
      · exact Or.inl h
      · exact Or.inr ⟨t, hl, by simpa [SetState] using ht⟩
    · exact h
  | WorkerExit thread =>
    simp only [step]
    rcases h with h | ⟨t, hl, ht⟩
    · left; simp [h]
    · by_cases e : t = thread
      · left; simp [hl, e]
      · right; exact ⟨t, by simp [hl, List.erase_cons, e], ht⟩

/-- Every run keeps the invariant. -/
theorem run_inv (actions : List Action) (s : System) (h : LifecycleInv s) :
    LifecycleInv (run s actions) := by
  induction actions generalizing s with
  | nil => exact h
  | cons a rest ih => exact ih (step s a) (step_inv s a h)

/-- Under the invariant at most one worker is live. -/
theorem LifecycleInv.length_le {s : System} (h : LifecycleInv s) : s.live.length ≤ 1 := by
  rcases h with h | ⟨t, hl, _⟩
  · simp [h]
  · simp [hl]

/-- Claim C7: from a freshly constructed manager, after every sequence of
`Toggle`, `Start`, `Stop` calls and worker steps, at most one worker is live,
and when a `Stop` then returns no worker is live and the handle is empty. -/
theorem C7_at_most_one_live_worker (w : World) (actions : List Action) :
    (run (System.fresh w) actions).live.length ≤ 1 ∧
    ∀ final : Option ConnectionManagerState,
      (Stop final (run (System.fresh w) actions)).live = [] ∧
      (Stop final (run (System.fresh w) actions)).world.m.m_thread = none := by
  have h : LifecycleInv (run (System.fresh w) actions) :=
    run_inv actions (System.fresh w) (Or.inl rfl)
  exact ⟨h.length_le, fun final => Stop_post final _ h⟩

/-- Claim C9, refuted as stated: on a freshly constructed manager (state
`STOPPED`, no handle) `Stop` changes the manager, because it sets the
cancellation flag. -/
theorem C9_counterexample :
    (System.fresh World.quiet).world.m.m_state = ConnectionManagerState.STOPPED ∧
    (System.fresh World.quiet).world.m.m_thread = none ∧
    (Stop none (System.fresh World.quiet)).world.m ≠ (System.fresh World.quiet).world.m := by
  decide

/-- Claim C9, amended: with an empty worker handle (whatever the state) `Stop`
waits on no worker and changes nothing but the cancellation flag, which it
sets; when the flag was already set the system is unchanged, and a second
`Stop` changes nothing. -/
theorem C9_stop_on_stopped (final : Option ConnectionManagerState) (s : System)
    (hthread : s.world.m.m_thread = none) :
    Stop final s =
      { s with world := { s.world with m := { s.world.m with m_userSignalledStop := true } } } ∧
    (s.world.m.m_userSignalledStop = true → Stop final s = s) ∧
    Stop final (Stop final s) = Stop final s := by
  have h1 : Stop final s =
      { s with world := { s.world with m := { s.world.m with m_userSignalledStop := true } } } := by
    simp [Stop, hthread]
  refine ⟨h1, ?_, ?_⟩
  · intro hflag
    rw [h1]
    cases s with
    | mk world live nextHandle =>
      cases world
      rename_i m _ _ _ _ _ _ _ _ _ _ _ _ _ _ _ _ _ _ _ _ _ _ _
      cases m
      simp_all
  · rw [h1]
    simp [Stop, hthread]

/-- Witness of `C9_stop_on_stopped` on a freshly constructed manager. -/
theorem C9_stop_on_stopped_witness :
    Stop none (System.fresh World.quiet) =
      { System.fresh World.quiet with
        world := { (System.fresh World.quiet).world with
          m := { (System.fresh World.quiet).world.m with m_userSignalledStop := true } } } ∧
    ((System.fresh World.quiet).world.m.m_userSignalledStop = true →
      Stop none (System.fresh World.quiet) = System.fresh World.quiet) ∧
    Stop none (Stop none (System.fresh World.quiet)) = Stop none (System.fresh World.quiet) :=
  C9_stop_on_stopped none (System.fresh World.quiet) rfl

/-- Claim C10, refuted as stated: with state `STARTING` after the defensive
`Stop`, `Start` spawns no worker but returns with the cancellation flag reset
to false, not as `Stop` left it (true). -/
theorem C10_counterexample :
    (Stop none exampleStartingSystem).world.m.m_state ≠ ConnectionManagerState.STOPPED ∧
    (Stop none exampleStartingSystem).world.m.m_userSignalledStop = true ∧
    (Start none true exampleStartingSystem).live = [] ∧
    (Start none true exampleStartingSystem).world.m.m_userSignalledStop = false := by
  decide

/-- Claim C10, amended: after its defensive `Stop` the handle is empty; when
the state is then not `STOPPED`, `Start` returns the system as `Stop` left it
except that the cancellation flag is reset to false, with no worker spawned;
when the state is `STOPPED` and the spawn fails it returns with state `STOPPED`,
no handle and no new worker; when the spawn succeeds it returns with state
`STARTING`, the flag false, one handle held and that worker live. -/
theorem C10_start (final : Option ConnectionManagerState) (spawnOk : Bool) (s : System) :
    (Stop final s).world.m.m_thread = none ∧
    ((Stop final s).world.m.m_state ≠ ConnectionManagerState.STOPPED →
      Start final spawnOk s =
        { Stop final s with
          world := { (Stop final s).world with
            m := { (Stop final s).world.m with m_userSignalledStop := false } } }) ∧
    ((Stop final s).world.m.m_state = ConnectionManagerState.STOPPED → spawnOk = false →
      (Start final spawnOk s).world.m =
        { (Stop final s).world.m with m_userSignalledStop := false } ∧
      (Start final spawnOk s).world.m.m_state = ConnectionManagerState.STOPPED ∧
      (Start final spawnOk s).world.m.m_thread = none ∧
      (Start final spawnOk s).live = (Stop final s).live ∧
      (Start final spawnOk s).world.trace = (Stop final s).world.trace ++
        [Event.SetState ConnectionManagerState.STARTING, Event.CreateThread none,
         Event.SetState ConnectionManagerState.STOPPED]) ∧
    ((Stop final s).world.m.m_state = ConnectionManagerState.STOPPED → spawnOk = true →
      (Start final spawnOk s).world.m.m_state = ConnectionManagerState.STARTING ∧
      (Start final spawnOk s).world.m.m_userSignalledStop = false ∧
      (Start final spawnOk s).world.m.m_thread = some (Stop final s).nextHandle ∧
      (Start final spawnOk s).live = (Stop final s).nextHandle :: (Stop final s).live ∧
      (Start final spawnOk s).world.trace = (Stop final s).world.trace ++
        [Event.SetState ConnectionManagerState.STARTING,
         Event.CreateThread (some (Stop final s).nextHandle)]) := by
  have ht := Stop_thread final s
  refine ⟨ht, ?_, ?_, ?_⟩
  · intro hs
    simp [Start, hs]
  · intro hs hsp
    subst hsp
    simp [Start, hs, ht, SetState]
  · intro hs hsp
    subst hsp
    simp [Start, hs, ht, SetState]


/-! ## The bounded VPN wait -/

/-- Claim C8, refuted as stated: with the cancellation flag set before the
call, a wait for the state to leave `STARTING` returns normally, without
polling, when the VPN state has already left `STARTING`. -/
theorem C8_counterexample :
    exampleCancelledWorld.m.m_userSignalledStop = true ∧
    exampleCancelledWorld.vpnStates.head = VPNConnectionState.FAILED ∧
    (WaitForVPNConnectionStateToChangeFrom VPNConnectionState.STARTING 1
      exampleCancelledWorld).1 = Result.ok () ∧
    (WaitForVPNConnectionStateToChangeFrom VPNConnectionState.STARTING 1
      exampleCancelledWorld).2.trace = exampleCancelledWorld.trace := by
  decide

/-- Claim C8, amended: in every world, at whatever polling iteration, if the
VPN state read by the loop condition still equals `state` and the cancellation
flag is set by the check that follows the 100 ms wait (set before, or by a
`Stop` that lands during the wait), the wait raises `Abort` after exactly that
one polling iteration and does not return normally. -/
theorem C8_wait_abort (state : VPNConnectionState) (fuel : Nat) (w : World)
    (hstate : w.vpnStates.head = state)
    (hflag : (w.m.m_userSignalledStop || w.stopRequests.head) = true) :
    WaitForVPNConnectionStateToChangeFrom state (fuel + 1) w =
      (Result.Abort,
        { w with m := { w.m with m_userSignalledStop := true },
                 vpnStates := w.vpnStates.tail,
                 waitResults := w.waitResults.tail,
                 stopRequests := w.stopRequests.tail,
                 trace := w.trace ++ [Event.WaitForSingleObject 100] }) := by
  simp [WaitForVPNConnectionStateToChangeFrom, M.bind, GetVPNConnectionState, hstate,
    WaitForSingleObject, GetUserSignalledStop, hflag, throwAbort]

/-- Witness of `C8_wait_abort`: the flag is set and the VPN state is still
`STARTING`. -/
theorem C8_wait_abort_witness :
    WaitForVPNConnectionStateToChangeFrom VPNConnectionState.STARTING (0 + 1)
        exampleCancelledStartingWorld =
      (Result.Abort,
        { exampleCancelledStartingWorld with
          m := { exampleCancelledStartingWorld.m with m_userSignalledStop := true },
          vpnStates := exampleCancelledStartingWorld.vpnStates.tail,
          waitResults := exampleCancelledStartingWorld.waitResults.tail,
          stopRequests := exampleCancelledStartingWorld.stopRequests.tail,
          trace := exampleCancelledStartingWorld.trace ++ [Event.WaitForSingleObject 100] }) :=
  C8_wait_abort VPNConnectionState.STARTING 0 exampleCancelledStartingWorld rfl rfl

/-- A polling iteration that sees the state unchanged, no cancellation and a
wait that neither failed nor was abandoned goes on to the next iteration. -/
theorem WaitForVPNConnectionStateToChangeFrom_poll (state : VPNConnectionState) (fuel : Nat)
    (w : World) (hstate : w.vpnStates.head = state)
    (hflag : (w.m.m_userSignalledStop || w.stopRequests.head) = false)
    (hfailed : w.waitResults.head ≠ WaitResult.WAIT_FAILED)
    (habandoned : w.waitResults.head ≠ WaitResult.WAIT_ABANDONED) :
    WaitForVPNConnectionStateToChangeFrom state (fuel + 1) w =
      WaitForVPNConnectionStateToChangeFrom state fuel
        { w with m := { w.m with m_userSignalledStop := false },
                 vpnStates := w.vpnStates.tail,
                 waitResults := w.waitResults.tail,
                 stopRequests := w.stopRequests.tail,
                 trace := w.trace ++ [Event.WaitForSingleObject 100] } := by
  simp [WaitForVPNConnectionStateToChangeFrom, M.bind, GetVPNConnectionState, hstate,
    WaitForSingleObject, GetUserSignalledStop, hflag, hfailed, habandoned]

/-- A wait that finds the state already changed returns at once. -/
theorem WaitForVPNConnectionStateToChangeFrom_changed (state : VPNConnectionState)
    (fuel : Nat) (w : World) (hstate : w.vpnStates.head ≠ state) :
    WaitForVPNConnectionStateToChangeFrom state (fuel + 1) w =
      (Result.ok (), { w with vpnStates := w.vpnStates.tail }) := by
  simp [WaitForVPNConnectionStateToChangeFrom, M.bind, GetVPNConnectionState, Ne.symm hstate,
    M.pure]

/-! ## The upgrade -/

/-- The archive path differs from the path of the binary. -/
theorem orig_ne (path : String) : path ≠ path ++ ".orig" := by
  intro h
  have := congrArg String.length h
  simp [String.length_append] at this
  revert this
  decide

/-- The path of the binary differs from the archive path. -/
theorem orig_ne_symm (path : String) : path ++ ".orig" ≠ path := fun h => orig_ne path h.symm

/-- Taking all the bytes of a string gives the string. -/
theorem takeBytes_length (d : String) : takeBytes d d.length = d := by
  cases d with
  | mk l =>
    show String.mk (l.take l.length) = String.mk l
    rw [List.take_length]

/-- The upgrade when no file step fails. -/
theorem DoUpgrade_success (w : World) (d b path : String)
    (hname : w.moduleFileNames.head = some path) (hbin : w.fs path = some b)
    (hdel : w.deleteFaults.head = false) (hmove : w.moveFaults.head = false)
    (hcreate : w.createFaults.head = false)
    (hwrite : w.writeResults.head.1 = true) (hlen : d.length ≤ w.writeResults.head.2)
    (hflush : w.flushFaults.head = false) :
    (DoUpgrade d w).1 = Result.ok true ∧
    (DoUpgrade d w).2.fs (path ++ ".orig") = some b ∧
    (DoUpgrade d w).2.fs path = some d ∧
    (DoUpgrade d w).2.trace = w.trace ++
      [Event.DeleteFile (path ++ ".orig") (w.fs (path ++ ".orig")).isSome,
       Event.MoveFile path (path ++ ".orig") true,
       Event.CreateFile path true,
       Event.WriteFile path true d.length,
       Event.FlushFileBuffers path true,
       Event.SuspendTeardownForUpgrade,
       Event.ShellExecute path,
       Event.PostMessageQuit] := by
  have hmin : min w.writeResults.head.2 d.length = d.length := Nat.min_eq_right hlen
  cases harch : w.fs (path ++ ".orig") with
  | none =>
    simp [DoUpgrade, DoUpgrade.tryBlock, M.bind, M.pure, GetModuleFileName, hname, DeleteFile,
      hdel, harch, GetLastError, MoveFile, hmove, hbin, CreateFile, hcreate, WriteFile, hwrite,
      hmin, FlushFileBuffers, hflush, emit, FileSystem.write, orig_ne, orig_ne_symm,
      takeBytes_length, ERROR_FILE_NOT_FOUND]
  | some old =>
    simp [DoUpgrade, DoUpgrade.tryBlock, M.bind, M.pure, GetModuleFileName, hname, DeleteFile,
      hdel, harch, GetLastError, MoveFile, hmove, hbin, CreateFile, hcreate, WriteFile, hwrite,
      hmin, FlushFileBuffers, hflush, emit, FileSystem.write, orig_ne, orig_ne_symm,
      takeBytes_length]

/-- The file system right after the rename step of the upgrade. -/
theorem DoUpgrade_after_rename (w : World) (b path : String)
    (hbin : w.fs path = some b)
    (hdel : w.deleteFaults.head = false) (hmove : w.moveFaults.head = false) :
    (MoveFile path (path ++ ".orig") (DeleteFile (path ++ ".orig") w).2).1 = Result.ok true ∧
    (MoveFile path (path ++ ".orig") (DeleteFile (path ++ ".orig") w).2).2.fs path = none ∧
    (MoveFile path (path ++ ".orig") (DeleteFile (path ++ ".orig") w).2).2.fs (path ++ ".orig") =
      some b := by
  cases harch : w.fs (path ++ ".orig") <;>
    simp [DeleteFile, hdel, harch, MoveFile, hmove, hbin, FileSystem.write, orig_ne,
      orig_ne_symm]

/-- Claim C5: when the rename of the running binary to the archive path
succeeds and a later step fails (create, write, a write shorter than the
download, or flush) and the restoring copy succeeds, `DoUpgrade` returns false,
the original path holds the original bytes again, and neither the respawn nor
the quit request is issued. -/
theorem C5_upgrade_rollback (w : World) (d b path : String)
    (hname : w.moduleFileNames.head = some path) (hbin : w.fs path = some b)
    (hdel : w.deleteFaults.head = false) (hmove : w.moveFaults.head = false)
    (hfail : w.createFaults.head = true ∨ w.writeResults.head.1 = false ∨
      w.writeResults.head.2 < d.length ∨ w.flushFaults.head = true)
    (hcopy : w.copyFaults.head = false) :
    (DoUpgrade d w).1 = Result.ok false ∧
    (DoUpgrade d w).2.fs path = some b ∧
    ∃ events, (DoUpgrade d w).2.trace = w.trace ++ events ∧
      Event.MoveFile path (path ++ ".orig") true ∈ events ∧
      Event.CopyFile (path ++ ".orig") path true ∈ events ∧
      (∀ filename, Event.ShellExecute filename ∉ events) ∧
      Event.PostMessageQuit ∉ events := by
  have hmin : d.length ≤ w.writeResults.head.2 →
      min w.writeResults.head.2 d.length = d.length := Nat.min_eq_right
  have hmin2 : w.writeResults.head.2 < d.length →
      min w.writeResults.head.2 d.length = w.writeResults.head.2 :=
    fun h => Nat.min_eq_left (Nat.le_of_lt h)
  cases harch : w.fs (path ++ ".orig") <;>
  cases hc : w.createFaults.head <;>
  cases hw : w.writeResults.head.1 <;>
  cases hf : w.flushFaults.head <;>
  rcases Nat.lt_or_ge w.writeResults.head.2 d.length with hl | hl <;>
  first
    | (exfalso; simp [hc, hw, hf] at hfail; omega)
    | (have hne := Nat.ne_of_lt hl
       simp [DoUpgrade, DoUpgrade.tryBlock, M.bind, M.pure, GetModuleFileName, hname, DeleteFile,
         hdel, harch, GetLastError, MoveFile, hmove, hbin, CreateFile, hc, WriteFile, hw,
         hmin2 hl, hne, FlushFileBuffers, hf, emit, FileSystem.write, orig_ne, orig_ne_symm,
         CopyFile, hcopy, ERROR_FILE_NOT_FOUND])
    | simp [DoUpgrade, DoUpgrade.tryBlock, M.bind, M.pure, GetModuleFileName, hname, DeleteFile,
         hdel, harch, GetLastError, MoveFile, hmove, hbin, CreateFile, hc, WriteFile, hw,
         hmin hl, FlushFileBuffers, hf, emit, FileSystem.write, orig_ne, orig_ne_symm,
         CopyFile, hcopy, ERROR_FILE_NOT_FOUND, takeBytes_length]


/-- Witness of `C5_upgrade_rollback`: `CreateFile` fails after the rename. -/
theorem C5_upgrade_rollback_witness :
    (DoUpgrade "new" exampleCreateFaultWorld).1 = Result.ok false ∧
    (DoUpgrade "new" exampleCreateFaultWorld).2.fs "app.exe" = some "old" ∧
    ∃ events, (DoUpgrade "new" exampleCreateFaultWorld).2.trace =
        exampleCreateFaultWorld.trace ++ events ∧
      Event.MoveFile "app.exe" ("app.exe" ++ ".orig") true ∈ events ∧
      Event.CopyFile ("app.exe" ++ ".orig") "app.exe" true ∈ events ∧
      (∀ filename, Event.ShellExecute filename ∉ events) ∧
      Event.PostMessageQuit ∉ events :=
  C5_upgrade_rollback exampleCreateFaultWorld "new" "old" "app.exe" rfl rfl rfl rfl
    (Or.inl rfl) rfl

/-- Claim C6, refuted as stated: when the download equals the original binary
("old"), every file step succeeds, `DoUpgrade` returns true, and the original
path still holds the bytes of the original binary. -/
theorem C6_counterexample :
    World.quiet.fs "app.exe" = some "old" ∧
    (DoUpgrade "old" World.quiet).1 = Result.ok true ∧
    (DoUpgrade "old" World.quiet).2.fs ("app.exe" ++ ".orig") = some "old" ∧
    (DoUpgrade "old" World.quiet).2.fs "app.exe" = some "old" := by
  have h := DoUpgrade_success World.quiet "old" "old" "app.exe" rfl rfl rfl rfl rfl rfl
    (by decide) rfl
  exact ⟨rfl, h.1, h.2.1, h.2.2.1⟩

/-- Claim C6, amended: when every file step succeeds, `DoUpgrade` returns true;
the stale archive, if any, is deleted first; the binary is moved, not
duplicated (right after the rename the original path is absent and the archive
holds `b`); on return the archive holds `b` and the original path holds `d`, of
the length of `d`, so that it holds `b` only when `d = b`. -/
theorem C6_upgrade_success (w : World) (d b path : String)
    (hname : w.moduleFileNames.head = some path) (hbin : w.fs path = some b)
    (hdel : w.deleteFaults.head = false) (hmove : w.moveFaults.head = false)
    (hcreate : w.createFaults.head = false)
    (hwrite : w.writeResults.head.1 = true) (hlen : d.length ≤ w.writeResults.head.2)
    (hflush : w.flushFaults.head = false) :
    (DoUpgrade d w).1 = Result.ok true ∧
    (DoUpgrade d w).2.fs (path ++ ".orig") = some b ∧
    (DoUpgrade d w).2.fs path = some d ∧
    ((DoUpgrade d w).2.fs path = some b ↔ d = b) ∧
    (∀ content, (DoUpgrade d w).2.fs path = some content → content.length = d.length) ∧
    (MoveFile path (path ++ ".orig") (DeleteFile (path ++ ".orig") w).2).2.fs path = none ∧
    (MoveFile path (path ++ ".orig") (DeleteFile (path ++ ".orig") w).2).2.fs (path ++ ".orig") =
      some b ∧
    (DoUpgrade d w).2.trace = w.trace ++
      [Event.DeleteFile (path ++ ".orig") (w.fs (path ++ ".orig")).isSome,
       Event.MoveFile path (path ++ ".orig") true,
       Event.CreateFile path true,
       Event.WriteFile path true d.length,
       Event.FlushFileBuffers path true,
       Event.SuspendTeardownForUpgrade,
       Event.ShellExecute path,
       Event.PostMessageQuit] := by
  obtain ⟨h1, h2, h3, h4⟩ := DoUpgrade_success w d b path hname hbin hdel hmove hcreate hwrite
    hlen hflush
  obtain ⟨_, h5, h6⟩ := DoUpgrade_after_rename w b path hbin hdel hmove
  refine ⟨h1, h2, h3, ?_, ?_, h5, h6, h4⟩
  · rw [h3]
    exact ⟨fun h => Option.some.inj h, fun h => by rw [h]⟩
  · intro content hcontent
    rw [h3] at hcontent
    rw [← Option.some.inj hcontent]

/-- Witness of `C6_upgrade_success`: the binary "old" is replaced by "new". -/
theorem C6_upgrade_success_witness :
    (DoUpgrade "new" World.quiet).1 = Result.ok true ∧
    (DoUpgrade "new" World.quiet).2.fs ("app.exe" ++ ".orig") = some "old" ∧
    (DoUpgrade "new" World.quiet).2.fs "app.exe" = some "new" ∧
    ((DoUpgrade "new" World.quiet).2.fs "app.exe" = some "old" ↔ "new" = "old") ∧
    (∀ content, (DoUpgrade "new" World.quiet).2.fs "app.exe" = some content →
      content.length = "new".length) ∧
    (MoveFile "app.exe" ("app.exe" ++ ".orig")
      (DeleteFile ("app.exe" ++ ".orig") World.quiet).2).2.fs "app.exe" = none ∧
    (MoveFile "app.exe" ("app.exe" ++ ".orig")
      (DeleteFile ("app.exe" ++ ".orig") World.quiet).2).2.fs ("app.exe" ++ ".orig") =
      some "old" ∧
    (DoUpgrade "new" World.quiet).2.trace = World.quiet.trace ++
      [Event.DeleteFile ("app.exe" ++ ".orig") (World.quiet.fs ("app.exe" ++ ".orig")).isSome,
       Event.MoveFile "app.exe" ("app.exe" ++ ".orig") true,
       Event.CreateFile "app.exe" true,
       Event.WriteFile "app.exe" true "new".length,
       Event.FlushFileBuffers "app.exe" true,
       Event.SuspendTeardownForUpgrade,
       Event.ShellExecute "app.exe",
       Event.PostMessageQuit] :=
  C6_upgrade_success World.quiet "new" "old" "app.exe" rfl rfl rfl rfl rfl rfl (by decide) rfl

/-! ## The trace logic: which calls a program can make -/

theorem Quiet.of_trace {α : Type} {x : M α} (h : ∀ w, (x w).2.trace = w.trace) : Quiet x :=
  fun w => ⟨[], by simp [h w], by simp⟩

/-- A program that appends one call, not a rotation call, is quiet. -/
theorem Quiet.of_event {α : Type} {x : M α} (e : World → Event)
    (h : ∀ w, (x w).2.trace = w.trace ++ [e w]) (he : ∀ w, Event.isRotation (e w) = false) :
    Quiet x :=
  fun w => ⟨[e w], h w, by simp [he w]⟩

/-- Sequencing keeps programs quiet. -/
theorem Quiet.bind {α β : Type} {x : M α} {f : α → M β} (hx : Quiet x)
    (hf : ∀ a, Quiet (f a)) : Quiet (M.bind x f) := by
  intro w
  obtain ⟨ev1, h1, q1⟩ := hx w
  unfold M.bind
  cases hr : x w with
  | mk r w1 =>
    rw [hr] at h1
    cases r with
    | ok a =>
      obtain ⟨ev2, h2, q2⟩ := hf a w1
      refine ⟨ev1 ++ ev2, ?_, ?_⟩
      · show (f a w1).2.trace = _
        rw [h2, h1, List.append_assoc]
      · intro e he
        rcases List.mem_append.mp he with h | h
        · exact q1 e h
        · exact q2 e h
    | Abort => exact ⟨ev1, h1, q1⟩
    | TryNextServer => exact ⟨ev1, h1, q1⟩
    | outOfFuel => exact ⟨ev1, h1, q1⟩

/-- A `try` block with a quiet body and a quiet handler is quiet. -/
theorem Quiet.catchTryNextServer {α : Type} {body handler : M α} (hb : Quiet body)
    (hh : Quiet handler) : Quiet (catchTryNextServer body handler) := by
  intro w
  obtain ⟨ev1, h1, q1⟩ := hb w
  unfold Psiphon.catchTryNextServer
  cases hr : body w with
  | mk r w1 =>
    rw [hr] at h1
    cases r with
    | TryNextServer =>
      obtain ⟨ev2, h2, q2⟩ := hh w1
      refine ⟨ev1 ++ ev2, ?_, ?_⟩
      · show (handler w1).2.trace = _
        rw [h2, h1, List.append_assoc]
      · intro e he
        rcases List.mem_append.mp he with h | h
        · exact q1 e h
        · exact q2 e h
    | ok a => exact ⟨ev1, h1, q1⟩
    | Abort => exact ⟨ev1, h1, q1⟩
    | outOfFuel => exact ⟨ev1, h1, q1⟩

/-- Returning a value is quiet. -/
theorem Quiet.pure {α : Type} (a : α) : Quiet (M.pure a) := Quiet.of_trace fun _ => rfl

/-- The program `throwAbort` makes no rotation call. -/
theorem Quiet.throwAbort {α : Type} : Quiet (throwAbort : M α) := Quiet.of_trace fun _ => rfl

/-- The program `throwTryNextServer` makes no rotation call. -/
theorem Quiet.throwTryNextServer {α : Type} : Quiet (throwTryNextServer : M α) :=
  Quiet.of_trace fun _ => rfl

/-- The program `outOfFuel` makes no rotation call. -/
theorem Quiet.outOfFuel {α : Type} : Quiet (outOfFuel : M α) := Quiet.of_trace fun _ => rfl

/-- Recording a call that is not a rotation call is quiet. -/
theorem Quiet.emit (e : Event) (he : Event.isRotation e = false) : Quiet (emit e) :=
  Quiet.of_event (fun _ => e) (fun _ => rfl) (fun _ => he)

/-- The program `GetUserSignalledStop` makes no rotation call. -/
theorem Quiet.GetUserSignalledStop : Quiet GetUserSignalledStop := Quiet.of_trace fun _ => rfl

/-- The program `SetState` makes no rotation call. -/
theorem Quiet.SetState (s : ConnectionManagerState) : Quiet (SetState s) :=
  Quiet.of_event (fun _ => Event.SetState s) (fun _ => rfl) (fun _ => rfl)

/-- The program `vpnList_GetList` makes no rotation call. -/
theorem Quiet.vpnList_GetList : Quiet vpnList_GetList :=
  Quiet.of_event (fun w => Event.GetList w.serverLists.head) (fun _ => rfl) (fun _ => rfl)

/-- The program `RemoveVPNConnection` makes no rotation call. -/
theorem Quiet.RemoveVPNConnection : Quiet RemoveVPNConnection := Quiet.emit _ rfl

/-- The program `SSHDisconnect` makes no rotation call. -/
theorem Quiet.SSHDisconnect : Quiet SSHDisconnect := Quiet.emit _ rfl

/-- The program `SSHWaitAndDisconnect` makes no rotation call. -/
theorem Quiet.SSHWaitAndDisconnect : Quiet SSHWaitAndDisconnect := Quiet.emit _ rfl

/-- The program `TweakVPN` makes no rotation call. -/
theorem Quiet.TweakVPN : Quiet TweakVPN := Quiet.emit _ rfl

/-- The program `TweakDNS` makes no rotation call. -/
theorem Quiet.TweakDNS : Quiet TweakDNS := Quiet.emit _ rfl

/-- The program `Sleep` makes no rotation call. -/
theorem Quiet.Sleep (n : Nat) : Quiet (Sleep n) := Quiet.emit _ rfl

/-- The program `rand` makes no rotation call. -/
theorem Quiet.rand : Quiet rand := Quiet.of_trace fun _ => rfl

/-- The program `getSession` makes no rotation call. -/
theorem Quiet.getSession : Quiet getSession := Quiet.of_trace fun _ => rfl

/-- The program `setSession` makes no rotation call. -/
theorem Quiet.setSession (s : SessionInfo) : Quiet (setSession s) := Quiet.of_trace fun _ => rfl

/-- The program `OpenHomePages` makes no rotation call. -/
theorem Quiet.OpenHomePages : Quiet OpenHomePages :=
  Quiet.of_event (fun w => Event.OpenBrowser w.m.m_currentSessionInfo.homepages)
    (fun _ => rfl) (fun _ => rfl)

/-- The program `GetRequest` makes no rotation call. -/
theorem Quiet.GetRequest (s : ServerEntry) (path : String) : Quiet (GetRequest s path) :=
  Quiet.of_event (fun w => Event.GetRequest s.serverAddress s.webServerPort
    s.webServerCertificate path w.httpsResponses.head.isSome) (fun _ => rfl) (fun _ => rfl)

/-- The program `GetVersionEx` makes no rotation call. -/
theorem Quiet.GetVersionEx : Quiet GetVersionEx :=
  Quiet.of_event (fun _ => Event.GetVersionEx) (fun _ => rfl) (fun _ => rfl)

/-- The program `GetVPNConnectionState` makes no rotation call. -/
theorem Quiet.GetVPNConnectionState : Quiet GetVPNConnectionState :=
  Quiet.of_trace fun _ => rfl

/-- The program `WaitForSingleObject` makes no rotation call. -/
theorem Quiet.WaitForSingleObject (n : Nat) : Quiet (WaitForSingleObject n) :=
  Quiet.of_event (fun _ => Event.WaitForSingleObject n) (fun _ => rfl) (fun _ => rfl)

/-- The program `VPNEstablish` makes no rotation call. -/
theorem Quiet.VPNEstablish : Quiet VPNEstablish :=
  Quiet.of_event (fun w => Event.VPNEstablish
    w.m.m_currentSessionInfo.serverEntry.serverAddress w.m.m_currentSessionInfo.psk
    w.vpnEstablishResults.head)
    (fun w => by unfold Psiphon.VPNEstablish; split <;> rfl) (fun _ => rfl)

/-- The program `SSHConnect` makes no rotation call. -/
theorem Quiet.SSHConnect (a b c d e : String) : Quiet (SSHConnect a b c d e) :=
  Quiet.of_event (fun w => Event.SSHConnect a b c d e w.sshConnectResults.head)
    (fun _ => rfl) (fun _ => rfl)

/-- The program `SSHWaitForConnected` makes no rotation call. -/
theorem Quiet.SSHWaitForConnected : Quiet SSHWaitForConnected :=
  Quiet.of_event (fun w => Event.SSHWaitForConnected w.sshWaitForConnectedResults.head)
    (fun _ => rfl) (fun _ => rfl)

/-- The program `GetConnectRequestPath` makes no rotation call. -/
theorem Quiet.GetConnectRequestPath (cfg : Config) : Quiet (GetConnectRequestPath cfg) :=
  Quiet.of_trace fun _ => rfl

/-- The program `GetFailedRequestPath` makes no rotation call. -/
theorem Quiet.GetFailedRequestPath (cfg : Config) : Quiet (GetFailedRequestPath cfg) :=
  Quiet.of_trace fun _ => rfl

/-- The program `GetModuleFileName` makes no rotation call. -/
theorem Quiet.GetModuleFileName : Quiet GetModuleFileName := Quiet.of_trace fun _ => rfl

/-- The program `GetLastError` makes no rotation call. -/
theorem Quiet.GetLastError : Quiet GetLastError := Quiet.of_trace fun _ => rfl

/-- The program `DeleteFile` makes no rotation call. -/
theorem Quiet.DeleteFile (p : String) : Quiet (DeleteFile p) := by
  intro w
  unfold Psiphon.DeleteFile
  split_ifs <;> exact ⟨[_], rfl, by simp [Event.isRotation]⟩

/-- The program `MoveFile` makes no rotation call. -/
theorem Quiet.MoveFile (p q : String) : Quiet (MoveFile p q) := by
  intro w
  unfold Psiphon.MoveFile
  split_ifs <;> exact ⟨[_], rfl, by simp [Event.isRotation]⟩

/-- The program `CreateFile` makes no rotation call. -/
theorem Quiet.CreateFile (p : String) : Quiet (CreateFile p) := by
  intro w
  unfold Psiphon.CreateFile
  split_ifs <;> exact ⟨[_], rfl, by simp [Event.isRotation]⟩

/-- The program `WriteFile` makes no rotation call. -/
theorem Quiet.WriteFile (p d : String) : Quiet (WriteFile p d) :=
  Quiet.of_event (fun w => Event.WriteFile p w.writeResults.head.1
    (min w.writeResults.head.2 d.length)) (fun _ => rfl) (fun _ => rfl)

/-- The program `FlushFileBuffers` makes no rotation call. -/
theorem Quiet.FlushFileBuffers (p : String) : Quiet (FlushFileBuffers p) :=
  Quiet.of_event (fun w => Event.FlushFileBuffers p (!w.flushFaults.head))
    (fun _ => rfl) (fun _ => rfl)

/-- The program `CopyFile` makes no rotation call. -/
theorem Quiet.CopyFile (p q : String) : Quiet (CopyFile p q) := by
  intro w
  unfold Psiphon.CopyFile
  split_ifs <;> exact ⟨[_], rfl, by simp [Event.isRotation]⟩

/-- The program `DoUpgrade.tryBlock` makes no rotation call. -/
theorem Quiet.DoUpgrade_tryBlock (f a d : String) : Quiet (DoUpgrade.tryBlock f a d) := by
  unfold DoUpgrade.tryBlock
  simp only [bind_eq_M_bind, pure_eq_M_pure]
  repeat' first
    | exact Quiet.pure _
    | exact Quiet.DeleteFile _
    | exact Quiet.GetLastError
    | exact Quiet.MoveFile _ _
    | exact Quiet.CreateFile _
    | exact Quiet.WriteFile _ _
    | exact Quiet.FlushFileBuffers _
    | apply Quiet.bind
    | split
    | intro _

/-- The program `DoUpgrade` makes no rotation call. -/
theorem Quiet.DoUpgrade (d : String) : Quiet (DoUpgrade d) := by
  unfold Psiphon.DoUpgrade
  simp only [bind_eq_M_bind, pure_eq_M_pure]
  repeat' first
    | exact Quiet.pure _
    | exact Quiet.GetModuleFileName
    | exact Quiet.DoUpgrade_tryBlock _ _ _
    | exact Quiet.CopyFile _ _
    | exact Quiet.emit _ rfl
    | apply Quiet.bind
    | split
    | intro _

/-- The program `HandleHandshakeResponse` makes no rotation call. -/
theorem Quiet.HandleHandshakeResponse (cfg : Config) (r : String) :
    Quiet (HandleHandshakeResponse cfg r) := by
  unfold Psiphon.HandleHandshakeResponse
  simp only [bind_eq_M_bind, pure_eq_M_pure]
  repeat' first
    | exact Quiet.pure _
    | exact Quiet.throwTryNextServer
    | exact Quiet.getSession
    | exact Quiet.setSession _
    | exact Quiet.emit _ rfl
    | apply Quiet.bind
    | split

/-- The program `RequireUpgrade` makes no rotation call. -/
theorem Quiet.RequireUpgrade (cfg : Config) : Quiet (RequireUpgrade cfg) := by
  unfold Psiphon.RequireUpgrade
  simp only [bind_eq_M_bind, pure_eq_M_pure]
  repeat' first
    | exact Quiet.pure _
    | exact Quiet.getSession
    | apply Quiet.bind
    | split
    | intro _

/-- The program `WaitForVPNConnectionStateToChangeFrom` makes no rotation call. -/
theorem Quiet.WaitForVPNConnectionStateToChangeFrom (state : VPNConnectionState) (fuel : Nat) :
    Quiet (WaitForVPNConnectionStateToChangeFrom state fuel) := by
  induction fuel with
  | zero => exact Quiet.outOfFuel
  | succ n ih =>
    unfold Psiphon.WaitForVPNConnectionStateToChangeFrom
    simp only [bind_eq_M_bind, pure_eq_M_pure]
    repeat' first
      | exact Quiet.pure _
      | exact Quiet.throwAbort
      | exact ih
      | exact Quiet.GetVPNConnectionState
      | exact Quiet.WaitForSingleObject _
      | exact Quiet.GetUserSignalledStop
      | apply Quiet.bind
      | split
      | intro _

/-- The program `DoVPNConnection.failed` makes no rotation call. -/
theorem Quiet.DoVPNConnection_failed (cfg : Config) (s : ServerEntry) :
    Quiet (DoVPNConnection.failed cfg s) := by
  unfold DoVPNConnection.failed
  simp only [bind_eq_M_bind, pure_eq_M_pure]
  repeat' first
    | exact Quiet.throwTryNextServer
    | exact Quiet.GetFailedRequestPath _
    | exact Quiet.GetRequest _ _
    | exact Quiet.rand
    | exact Quiet.Sleep _
    | apply Quiet.bind
    | intro _

/-- The program `DoVPNConnection.connected` makes no rotation call. -/
theorem Quiet.DoVPNConnection_connected (cfg : Config) (fuel : Nat) (s : ServerEntry) :
    Quiet (DoVPNConnection.connected cfg fuel s) := by
  unfold DoVPNConnection.connected
  simp only [bind_eq_M_bind, pure_eq_M_pure]
  repeat' first
    | exact Quiet.TweakDNS
    | exact Quiet.OpenHomePages
    | exact Quiet.GetConnectRequestPath _
    | exact Quiet.GetRequest _ _
    | exact Quiet.WaitForVPNConnectionStateToChangeFrom _ _
    | exact Quiet.SetState _
    | apply Quiet.bind
    | split
    | intro _

/-- The program `DoVPNConnection` makes no rotation call. -/
theorem Quiet.DoVPNConnection (cfg : Config) (fuel : Nat) (s : ServerEntry) :
    Quiet (DoVPNConnection cfg fuel s) := by
  unfold Psiphon.DoVPNConnection
  simp only [bind_eq_M_bind, pure_eq_M_pure]
  repeat' first
    | exact Quiet.throwAbort
    | exact Quiet.GetVersionEx
    | exact Quiet.TweakVPN
    | exact Quiet.VPNEstablish
    | exact Quiet.WaitForVPNConnectionStateToChangeFrom _ _
    | exact Quiet.GetVPNConnectionState
    | exact Quiet.DoVPNConnection_failed _ _
    | exact Quiet.DoVPNConnection_connected _ _ _
    | exact Quiet.SetState _
    | apply Quiet.bind
    | split
    | intro _

/-- The program `DoSSHConnection` makes no rotation call. -/
theorem Quiet.DoSSHConnection : Quiet DoSSHConnection := by
  unfold Psiphon.DoSSHConnection
  simp only [bind_eq_M_bind, pure_eq_M_pure]
  repeat' first
    | exact Quiet.pure _
    | exact Quiet.throwAbort
    | exact Quiet.throwTryNextServer
    | exact Quiet.SSHConnect _ _ _ _ _
    | exact Quiet.SSHWaitForConnected
    | exact Quiet.GetUserSignalledStop
    | exact Quiet.SetState _
    | exact Quiet.OpenHomePages
    | exact Quiet.SSHWaitAndDisconnect
    | apply Quiet.bind
    | split
    | intro _

/-- The program `upgrade` makes no rotation call. -/
theorem Quiet.upgrade (cfg : Config) (s : ServerEntry) :
    Quiet (ConnectionManagerStartThread.upgrade cfg s) := by
  unfold ConnectionManagerStartThread.upgrade
  simp only [bind_eq_M_bind, pure_eq_M_pure]
  repeat' first
    | exact Quiet.pure _
    | exact Quiet.throwAbort
    | exact Quiet.RequireUpgrade _
    | exact Quiet.GetRequest _ _
    | exact Quiet.GetUserSignalledStop
    | exact Quiet.DoUpgrade _
    | apply Quiet.bind
    | split
    | intro _

/-- The program `connect` makes no rotation call. -/
theorem Quiet.connect (cfg : Config) (fuel : Nat) (s : ServerEntry) :
    Quiet (ConnectionManagerStartThread.connect cfg fuel s) := by
  unfold ConnectionManagerStartThread.connect
  simp only [bind_eq_M_bind, pure_eq_M_pure]
  apply Quiet.catchTryNextServer
  · exact Quiet.DoVPNConnection _ _ _
  · exact Quiet.bind Quiet.RemoveVPNConnection fun _ => Quiet.DoSSHConnection

/-- Sequencing is associative. -/
theorem M.bind_assoc {α β γ : Type} (x : M α) (f : α → M β) (g : β → M γ) :
    M.bind (M.bind x f) g = M.bind x (fun a => M.bind (f a) g) := by
  funext w
  unfold M.bind
  cases hr : x w with
  | mk r w1 => cases r <;> rfl

/-- A selection followed by a quiet program: the selection is the only rotation call. -/
theorem Quiet.after_GetNextServer {α : Type} {k : Option ServerEntry → M α}
    (hk : ∀ a, Quiet (k a)) (w : World) :
    ∃ events, (M.bind vpnList_GetNextServer k w).2.trace =
        w.trace ++ Event.GetNextServer w.nextServers.head :: events ∧
      ∀ e ∈ events, Event.isRotation e = false := by
  obtain ⟨events, h, q⟩ := hk w.nextServers.head (vpnList_GetNextServer w).2
  refine ⟨events, ?_, q⟩
  show (k w.nextServers.head (vpnList_GetNextServer w).2).2.trace = _
  rw [h]
  simp [vpnList_GetNextServer]

/-- The program `upgradeAndConnect` makes no rotation call. -/
theorem Quiet.upgradeAndConnect (cfg : Config) (fuel : Nat) (s : ServerEntry) :
    Quiet (ConnectionManagerStartThread.upgradeAndConnect cfg fuel s) := by
  unfold ConnectionManagerStartThread.upgradeAndConnect
  simp only [bind_eq_M_bind, pure_eq_M_pure]
  repeat' first
    | exact Quiet.pure _
    | exact Quiet.upgrade _ _
    | exact Quiet.connect _ _ _
    | apply Quiet.bind
    | split
    | intro _

/-- The body of the loop makes one rotation call, its own selection, and it is its first call. -/
theorem tryBody_trace (cfg : Config) (waitFuel : Nat) (w : World) :
    ∃ events, (ConnectionManagerStartThread.tryBody cfg waitFuel w).2.trace =
        w.trace ++ Event.GetNextServer w.nextServers.head :: events ∧
      ∀ e ∈ events, Event.isRotation e = false := by
  unfold ConnectionManagerStartThread.tryBody ConnectionManagerStartThread.handshake
    LoadNextServer
  simp only [bind_eq_M_bind, pure_eq_M_pure, M.bind_assoc]
  apply Quiet.after_GetNextServer
  intro a
  repeat' first
    | exact Quiet.pure _
    | exact Quiet.throwAbort
    | exact Quiet.throwTryNextServer
    | exact Quiet.setSession _
    | exact Quiet.getSession
    | exact Quiet.vpnList_GetList
    | exact Quiet.GetRequest _ _
    | exact Quiet.GetUserSignalledStop
    | exact Quiet.HandleHandshakeResponse _ _
    | exact Quiet.upgradeAndConnect _ _ _
    | apply Quiet.bind
    | split
    | intro _

/-! ## Sections of the loop body -/

theorem Script.tail_const {α : Type} (a : α) : (Script.const a).tail = Script.const a := rfl

/-- The next answer of a constant script. -/
theorem Script.head_const {α : Type} (a : α) : (Script.const a).head = a := rfl

/-- The next answer of a script that starts with `a`. -/
theorem Script.head_cons {α : Type} (a : α) (s : Script α) : (Script.cons a s).head = a := rfl

/-- The rest of a script that starts with `a`. -/
theorem Script.tail_cons {α : Type} (a : α) (s : Script α) : (Script.cons a s).tail = s := rfl

/-- The handshake section when the request succeeds and the response parses. -/
theorem handshake_ok (cfg : Config) (w : World) (s : ServerEntry) (response : String)
    (parsed : HandshakeResponse)
    (hnext : w.nextServers.head = some s) (hreq : w.httpsResponses.head = some response)
    (hparse : cfg.ParseHandshakeResponse response = some parsed) :
    ConnectionManagerStartThread.handshake cfg w = (Result.ok s, afterHandshake cfg w s parsed) := by
  simp [ConnectionManagerStartThread.handshake, LoadNextServer, M.bind, M.pure,
    vpnList_GetNextServer, hnext, setSession, getSession, vpnList_GetList, GetRequest, hreq,
    HandleHandshakeResponse, hparse, emit, afterHandshake, handshakeRequestPath, SessionInfo.Set]

/-- After the handshake section the body goes on with the upgrade and transport sections. -/
theorem tryBody_after_handshake (cfg : Config) (waitFuel : Nat) (w w1 : World)
    (s : ServerEntry) (h : ConnectionManagerStartThread.handshake cfg w = (Result.ok s, w1)) :
    ConnectionManagerStartThread.tryBody cfg waitFuel w =
      ConnectionManagerStartThread.upgradeAndConnect cfg waitFuel s w1 := by
  simp [ConnectionManagerStartThread.tryBody, M.bind, h]

/-- The upgrade section when the download request fails with the flag not set. -/
theorem upgrade_failed_download (cfg : Config) (w : World) (s : ServerEntry)
    (hup : w.m.m_currentSessionInfo.upgradeVersion.length > 0)
    (hdown : w.httpsResponses.head = none)
    (hflag : w.m.m_userSignalledStop = false) (hstop : w.stopRequests.head = false) :
    ConnectionManagerStartThread.upgrade cfg s w = (Result.ok false, afterFailedDownload cfg w s) := by
  simp [ConnectionManagerStartThread.upgrade, RequireUpgrade, M.bind, M.pure, getSession, hup,
    GetRequest, hdown, GetUserSignalledStop, hflag, hstop, afterFailedDownload]

/-- When the upgrade section returns false the transport section runs. -/
theorem upgradeAndConnect_not_upgraded (cfg : Config) (waitFuel : Nat) (w w1 : World)
    (s : ServerEntry)
    (h : ConnectionManagerStartThread.upgrade cfg s w = (Result.ok false, w1)) :
    ConnectionManagerStartThread.upgradeAndConnect cfg waitFuel s w =
      M.bind (ConnectionManagerStartThread.connect cfg waitFuel s) (fun _ => M.pure false) w1 := by
  simp [ConnectionManagerStartThread.upgradeAndConnect, M.bind, h]

/-- The VPN attempt whose negotiation ends connected sets `CONNECTED_VPN` and goes on with the connected section. -/
theorem DoVPNConnection_connected_eq (cfg : Config) (fuel : Nat) (s : ServerEntry) (w w3 : World)
    (hversion : versionCheckFails w.osVersions.head = false)
    (hestablish : w.vpnEstablishResults.head = true)
    (hwait : WaitForVPNConnectionStateToChangeFrom VPNConnectionState.STARTING fuel
      (afterVPNEstablish w) = (Result.ok (), w3))
    (hconnected : w3.vpnStates.head = VPNConnectionState.CONNECTED) :
    DoVPNConnection cfg fuel s w = DoVPNConnection.connected cfg fuel s (afterConnected w3) := by
  have hw : WaitForVPNConnectionStateToChangeFrom VPNConnectionState.STARTING fuel
      { w with osVersions := w.osVersions.tail,
               vpnEstablishResults := w.vpnEstablishResults.tail,
               trace := w.trace ++
                 [Event.GetVersionEx, Event.TweakVPN,
                  Event.VPNEstablish w.m.m_currentSessionInfo.serverEntry.serverAddress
                    w.m.m_currentSessionInfo.psk true] } = (Result.ok (), w3) := hwait
  simp [DoVPNConnection, M.bind, GetVersionEx, hversion, TweakVPN, emit, VPNEstablish,
    hestablish, hw, GetVPNConnectionState, hconnected, SetState, afterConnected]

/-- Whatever the session, when the VPN attempt ends in `TryNextServer` the
transport section removes the VPN connection and runs `DoSSHConnection` once,
whose first call is `SSHConnect` on "1.1.1.1", and makes no rotation call. -/
theorem connect_after_vpn_failure (cfg : Config) (fuel : Nat) (s : ServerEntry) (w w1 : World)
    (h : DoVPNConnection cfg fuel s w = (Result.TryNextServer, w1)) :
    ConnectionManagerStartThread.connect cfg fuel s w =
      DoSSHConnection { w1 with trace := w1.trace ++ [Event.RemoveVPNConnection] } ∧
    ∃ events, (ConnectionManagerStartThread.connect cfg fuel s w).2.trace =
        w1.trace ++ Event.RemoveVPNConnection ::
          Event.SSHConnect "1.1.1.1" "22" "<base64>==" "psiphonv" "<password>"
            w1.sshConnectResults.head :: events ∧
      ∀ e ∈ events, Event.isRotation e = false ∧
        ∀ a b c d f ok, e ≠ Event.SSHConnect a b c d f ok := by
  have h1 : ConnectionManagerStartThread.connect cfg fuel s w =
      DoSSHConnection { w1 with trace := w1.trace ++ [Event.RemoveVPNConnection] } := by
    simp [ConnectionManagerStartThread.connect, catchTryNextServer, h, M.bind,
      RemoveVPNConnection, emit]
  refine ⟨h1, ?_⟩
  rw [h1]
  cases hc : w1.sshConnectResults.head <;> cases hw : w1.sshWaitForConnectedResults.head <;>
    cases hf : w1.m.m_userSignalledStop <;> cases hs : w1.stopRequests.head <;>
    simp [DoSSHConnection, M.bind, M.pure, SSHConnect, hc, SSHWaitForConnected, hw,
      GetUserSignalledStop, hf, hs, throwAbort, throwTryNextServer, SetState, OpenHomePages,
      SSHWaitAndDisconnect, emit, Event.isRotation]

/-! ## The origins of `Abort` inside an iteration -/

/-- Origin of `Abort`: the directory fails in `LoadNextServer`. -/
theorem tryBody_abort_directory (cfg : Config) (waitFuel : Nat) (w : World)
    (h : w.nextServers.head = none) :
    (ConnectionManagerStartThread.tryBody cfg waitFuel w).1 = Result.Abort := by
  simp [ConnectionManagerStartThread.tryBody, ConnectionManagerStartThread.handshake,
    LoadNextServer, M.bind, vpnList_GetNextServer, h, throwAbort]

/-- Origin of `Abort`: the handshake request fails with the flag set. -/
theorem tryBody_abort_handshake_cancelled (cfg : Config) (waitFuel : Nat) (w : World)
    (s : ServerEntry) (hnext : w.nextServers.head = some s)
    (hreq : w.httpsResponses.head = none)
    (hflag : (w.m.m_userSignalledStop || w.stopRequests.head) = true) :
    (ConnectionManagerStartThread.tryBody cfg waitFuel w).1 = Result.Abort := by
  simp [ConnectionManagerStartThread.tryBody, ConnectionManagerStartThread.handshake,
    LoadNextServer, M.bind, M.pure, vpnList_GetNextServer, hnext, setSession, getSession,
    vpnList_GetList, GetRequest, hreq, GetUserSignalledStop, hflag, throwAbort]

/-- Origin of `Abort`: the download request fails with the flag set. -/
theorem upgrade_abort_download_cancelled (cfg : Config) (w : World) (s : ServerEntry)
    (hup : w.m.m_currentSessionInfo.upgradeVersion.length > 0)
    (hdown : w.httpsResponses.head = none)
    (hflag : (w.m.m_userSignalledStop || w.stopRequests.head) = true) :
    (ConnectionManagerStartThread.upgrade cfg s w).1 = Result.Abort := by
  simp [ConnectionManagerStartThread.upgrade, RequireUpgrade, M.bind, M.pure, getSession, hup,
    GetRequest, hdown, GetUserSignalledStop, hflag, throwAbort]

/-- Origin of `Abort`: the platform version check of `DoVPNConnection`. -/
theorem DoVPNConnection_abort_version (cfg : Config) (fuel : Nat) (s : ServerEntry) (w : World)
    (h : versionCheckFails w.osVersions.head = true) :
    (DoVPNConnection cfg fuel s w).1 = Result.Abort := by
  simp [DoVPNConnection, M.bind, GetVersionEx, h, throwAbort]

/-- Origin of `Abort`: the local failure of `VPNEstablish`. -/
theorem DoVPNConnection_abort_establish (cfg : Config) (fuel : Nat) (s : ServerEntry)
    (w : World) (hversion : versionCheckFails w.osVersions.head = false)
    (h : w.vpnEstablishResults.head = false) :
    (DoVPNConnection cfg fuel s w).1 = Result.Abort := by
  simp [DoVPNConnection, M.bind, GetVersionEx, hversion, TweakVPN, emit, VPNEstablish, h]

/-- Origin of `Abort`: the first VPN wait is cancelled. -/
theorem DoVPNConnection_abort_wait (cfg : Config) (fuel : Nat) (s : ServerEntry) (w : World)
    (hversion : versionCheckFails w.osVersions.head = false)
    (hestablish : w.vpnEstablishResults.head = true)
    (hwait : (WaitForVPNConnectionStateToChangeFrom VPNConnectionState.STARTING fuel
      (afterVPNEstablish w)).1 = Result.Abort) :
    (DoVPNConnection cfg fuel s w).1 = Result.Abort := by
  have hw : (WaitForVPNConnectionStateToChangeFrom VPNConnectionState.STARTING fuel
      { w with osVersions := w.osVersions.tail,
               vpnEstablishResults := w.vpnEstablishResults.tail,
               trace := w.trace ++
                 [Event.GetVersionEx, Event.TweakVPN,
                  Event.VPNEstablish w.m.m_currentSessionInfo.serverEntry.serverAddress
                    w.m.m_currentSessionInfo.psk true] }).1 = Result.Abort := hwait
  cases hx : WaitForVPNConnectionStateToChangeFrom VPNConnectionState.STARTING fuel
      { w with osVersions := w.osVersions.tail,
               vpnEstablishResults := w.vpnEstablishResults.tail,
               trace := w.trace ++
                 [Event.GetVersionEx, Event.TweakVPN,
                  Event.VPNEstablish w.m.m_currentSessionInfo.serverEntry.serverAddress
                    w.m.m_currentSessionInfo.psk true] } with
  | mk r w1 =>
    rw [hx] at hw
    simp only at hw
    subst hw
    simp [DoVPNConnection, M.bind, GetVersionEx, hversion, TweakVPN, emit, VPNEstablish,
      hestablish, hx]

/-- Origin of `Abort`: the SSH connection or its confirmation fails with the
flag set. -/
theorem DoSSHConnection_abort (w : World)
    (hfail : (w.sshConnectResults.head && w.sshWaitForConnectedResults.head) = false)
    (hflag : (w.m.m_userSignalledStop || w.stopRequests.head) = true) :
    (DoSSHConnection w).1 = Result.Abort := by
  cases hc : w.sshConnectResults.head <;> cases hw : w.sshWaitForConnectedResults.head <;>
    simp [hc, hw] at hfail <;>
    simp [DoSSHConnection, M.bind, M.pure, SSHConnect, hc, SSHWaitForConnected, hw,
      GetUserSignalledStop, hflag, throwAbort]

/-- An `Abort` of the VPN attempt leaves the transport section as `Abort`. -/
theorem connect_abort_of_vpn (cfg : Config) (fuel : Nat) (s : ServerEntry) (w : World)
    (h : (DoVPNConnection cfg fuel s w).1 = Result.Abort) :
    (ConnectionManagerStartThread.connect cfg fuel s w).1 = Result.Abort := by
  revert h
  simp only [ConnectionManagerStartThread.connect, catchTryNextServer]
  generalize DoVPNConnection cfg fuel s w = x
  intro h
  cases x with
  | mk r w1 =>
    simp only at h
    subst h
    rfl

/-- An `Abort` of the SSH attempt, made in the handler of the VPN failure,
leaves the transport section as `Abort`. -/
theorem connect_abort_of_ssh (cfg : Config) (fuel : Nat) (s : ServerEntry) (w w1 : World)
    (h : DoVPNConnection cfg fuel s w = (Result.TryNextServer, w1))
    (hssh : (DoSSHConnection
      { w1 with trace := w1.trace ++ [Event.RemoveVPNConnection] }).1 = Result.Abort) :
    (ConnectionManagerStartThread.connect cfg fuel s w).1 = Result.Abort := by
  rw [(connect_after_vpn_failure cfg fuel s w w1 h).1]
  exact hssh

/-- An `Abort` of the upgrade section leaves the rest of the body as `Abort`. -/
theorem upgradeAndConnect_abort_of_upgrade (cfg : Config) (waitFuel : Nat) (s : ServerEntry)
    (w : World) (h : (ConnectionManagerStartThread.upgrade cfg s w).1 = Result.Abort) :
    (ConnectionManagerStartThread.upgradeAndConnect cfg waitFuel s w).1 = Result.Abort := by
  revert h
  simp only [ConnectionManagerStartThread.upgradeAndConnect, bind_eq_M_bind, M.bind]
  generalize ConnectionManagerStartThread.upgrade cfg s w = x
  intro h
  cases x with
  | mk r w1 =>
    simp only at h
    subst h
    rfl

/-- An `Abort` of the transport section leaves the rest of the body as `Abort`. -/
theorem upgradeAndConnect_abort_of_connect (cfg : Config) (waitFuel : Nat) (s : ServerEntry)
    (w w1 : World) (h : ConnectionManagerStartThread.upgrade cfg s w = (Result.ok false, w1))
    (hc : (ConnectionManagerStartThread.connect cfg waitFuel s w1).1 = Result.Abort) :
    (ConnectionManagerStartThread.upgradeAndConnect cfg waitFuel s w).1 = Result.Abort := by
  rw [upgradeAndConnect_not_upgraded cfg waitFuel w w1 s h]
  revert hc
  simp only [M.bind]
  generalize ConnectionManagerStartThread.connect cfg waitFuel s w1 = x
  intro hc
  cases x with
  | mk r w2 =>
    simp only at hc
    subst hc
    rfl

/-- An `Abort` after the handshake section leaves the body as `Abort`. -/
theorem tryBody_abort_of_upgradeAndConnect (cfg : Config) (waitFuel : Nat) (s : ServerEntry)
    (w w1 : World) (h : ConnectionManagerStartThread.handshake cfg w = (Result.ok s, w1))
    (hc : (ConnectionManagerStartThread.upgradeAndConnect cfg waitFuel s w1).1 = Result.Abort) :
    (ConnectionManagerStartThread.tryBody cfg waitFuel w).1 = Result.Abort := by
  rw [tryBody_after_handshake cfg waitFuel w w1 s h]
  exact hc

/-- Origin of `Abort`: the wait for the connected VPN to stop is cancelled. -/
theorem DoVPNConnection_connected_abort_wait (cfg : Config) (fuel : Nat) (s : ServerEntry)
    (w : World)
    (hwait : (WaitForVPNConnectionStateToChangeFrom VPNConnectionState.CONNECTED fuel
      { w with pppIPAddresses := w.pppIPAddresses.tail,
               httpsResponses := w.httpsResponses.tail,
               trace := w.trace ++
                 [Event.TweakDNS, Event.OpenBrowser w.m.m_currentSessionInfo.homepages,
                  Event.GetRequest s.serverAddress s.webServerPort s.webServerCertificate
                    (cfg.HTTP_CONNECTED_REQUEST_PATH ++
                      requestQuery cfg cfg.CLIENT_VERSION
                        w.m.m_currentSessionInfo.serverEntry.webServerSecret ++
                      "&vpn_client_ip_address=" ++ w.pppIPAddresses.head)
                    w.httpsResponses.head.isSome] }).1 = Result.Abort) :
    (DoVPNConnection.connected cfg fuel s w).1 = Result.Abort := by
  cases hx : WaitForVPNConnectionStateToChangeFrom VPNConnectionState.CONNECTED fuel
      { w with pppIPAddresses := w.pppIPAddresses.tail,
               httpsResponses := w.httpsResponses.tail,
               trace := w.trace ++
                 [Event.TweakDNS, Event.OpenBrowser w.m.m_currentSessionInfo.homepages,
                  Event.GetRequest s.serverAddress s.webServerPort s.webServerCertificate
                    (cfg.HTTP_CONNECTED_REQUEST_PATH ++
                      requestQuery cfg cfg.CLIENT_VERSION
                        w.m.m_currentSessionInfo.serverEntry.webServerSecret ++
                      "&vpn_client_ip_address=" ++ w.pppIPAddresses.head)
                    w.httpsResponses.head.isSome] } with
  | mk r w1 =>
    rw [hx] at hwait
    simp only at hwait
    subst hwait
    simp [DoVPNConnection.connected, M.bind, TweakDNS, emit, OpenHomePages,
      GetConnectRequestPath, GetRequest, hx]

/-! ## The worker: claims C1 to C4 -/

/-- The run of the witness of `C1_failover_order`, evaluated: the worker returns
with two selections and one mark. -/
theorem exampleFailoverConnectedWorld_run :
    (ConnectionManagerStartThread exampleConfig 1 2 exampleFailoverConnectedWorld).1 =
      Result.ok () ∧
    (ConnectionManagerStartThread exampleConfig 1 2
        exampleFailoverConnectedWorld).2.trace.filter Event.isRotation =
      [Event.GetNextServer (some (exampleServer "10.0.0.1")),
       Event.MarkCurrentServerFailed,
       Event.GetNextServer (some (exampleServer "10.0.0.2"))] ∧
    (ConnectionManagerStartThread exampleConfig 1 2
        exampleFailoverConnectedWorld).2.m.m_state = ConnectionManagerState.STOPPED := by
  decide!

/-- Claim C2, the code at a failing input: the server "10.0.0.1" is selected,
its VPN attempt ends in `TryNextServer`, the VPN connection is removed and one
SSH attempt is made before any rotation call, with the session still that of
"10.0.0.1"; but the SSH connection is made to the fixed address "1.1.1.1",
port "22", not to the selected server. -/
theorem C2_ssh_attempt_target :
    (ConnectionManagerStartThread.tryBody exampleConfig 1 exampleVPNFailedWorld).1 =
      Result.TryNextServer ∧
    (ConnectionManagerStartThread.tryBody exampleConfig 1
      exampleVPNFailedWorld).2.m.m_currentSessionInfo.serverEntry = exampleServer "10.0.0.1" ∧
    (ConnectionManagerStartThread.tryBody exampleConfig 1 exampleVPNFailedWorld).2.trace =
      [Event.GetNextServer (some (exampleServer "10.0.0.1")),
       Event.GetList [],
       Event.GetRequest "10.0.0.1" 443 "cert"
         "/handshake?propagation_channel_id=P&sponsor_id=S&client_version=1&server_secret=secret"
         true,
       Event.AddEntriesToList [],
       Event.GetVersionEx,
       Event.TweakVPN,
       Event.VPNEstablish "10.0.0.1" "psk" true,
       Event.GetRequest "10.0.0.1" 443 "cert"
         "/failed?propagation_channel_id=P&sponsor_id=S&client_version=1&server_secret=secret&error_code=0"
         false,
       Event.Sleep 1000,
       Event.RemoveVPNConnection,
       Event.SSHConnect "1.1.1.1" "22" "<base64>==" "psiphonv" "<password>" false] := by
  decide!

/-- Claim C3: whenever the body of the loop ends in `Abort`, whatever its
origin, the worker removes the VPN connection, disconnects SSH, sets the state
`STOPPED` and returns; in that iteration the only rotation call is its own
selection: no `MarkCurrentServerFailed` and no further `GetNextServer`. -/
theorem C3_abort_teardown (cfg : Config) (waitFuel fuel : Nat) (w w1 : World)
    (habort : ConnectionManagerStartThread.tryBody cfg waitFuel w = (Result.Abort, w1)) :
    ConnectionManagerStartThread cfg waitFuel (fuel + 1) w =
      (Result.ok (),
        { w1 with m := { w1.m with m_state := ConnectionManagerState.STOPPED },
                  trace := w1.trace ++ [Event.RemoveVPNConnection, Event.SSHDisconnect,
                    Event.SetState ConnectionManagerState.STOPPED] }) ∧
    ∃ events, w1.trace = w.trace ++ Event.GetNextServer w.nextServers.head :: events ∧
      ∀ e ∈ events, Event.isRotation e = false := by
  constructor
  · simp [ConnectionManagerStartThread, habort, ConnectionManagerStartThread.catchAbort,
      M.bind, RemoveVPNConnection, SSHDisconnect, SetState, emit]
  · have h := tryBody_trace cfg waitFuel w
    rw [habort] at h
    exact h

/-- In `exampleCancelledSSHWorld` the body of the loop ends in `Abort`, raised
by `DoSSHConnection` inside the handler of the VPN failure. -/
theorem exampleCancelledSSHWorld_abort :
    ConnectionManagerStartThread.tryBody exampleConfig 1 exampleCancelledSSHWorld =
      (Result.Abort,
        (ConnectionManagerStartThread.tryBody exampleConfig 1 exampleCancelledSSHWorld).2) := by
  have h : (ConnectionManagerStartThread.tryBody exampleConfig 1 exampleCancelledSSHWorld).1 =
      Result.Abort := by decide!
  revert h
  generalize ConnectionManagerStartThread.tryBody exampleConfig 1 exampleCancelledSSHWorld = x
  intro h
  cases x with
  | mk r w1 =>
    simp only at h
    rw [h]

/-- Witness of `C3_abort_teardown`: the SSH connection fails with the
cancellation flag set. -/
theorem C3_abort_teardown_witness :
    ConnectionManagerStartThread exampleConfig 1 (0 + 1) exampleCancelledSSHWorld =
      (Result.ok (),
        { (ConnectionManagerStartThread.tryBody exampleConfig 1 exampleCancelledSSHWorld).2 with
          m := { (ConnectionManagerStartThread.tryBody exampleConfig 1
                   exampleCancelledSSHWorld).2.m with
                 m_state := ConnectionManagerState.STOPPED },
          trace := (ConnectionManagerStartThread.tryBody exampleConfig 1
                     exampleCancelledSSHWorld).2.trace ++
            [Event.RemoveVPNConnection, Event.SSHDisconnect,
             Event.SetState ConnectionManagerState.STOPPED] }) ∧
    ∃ events,
      (ConnectionManagerStartThread.tryBody exampleConfig 1 exampleCancelledSSHWorld).2.trace =
        exampleCancelledSSHWorld.trace ++
          Event.GetNextServer exampleCancelledSSHWorld.nextServers.head :: events ∧
      ∀ e ∈ events, Event.isRotation e = false :=
  C3_abort_teardown exampleConfig 1 0 exampleCancelledSSHWorld _ exampleCancelledSSHWorld_abort

/-- Claim C4, refuted as stated: the handshake succeeds and announces the
upgrade version "2", the download request fails, and because the cancellation
flag is set by then the body ends in `Abort` with no VPN attempt. -/
theorem C4_counterexample :
    (ConnectionManagerStartThread.tryBody exampleConfig 1 exampleCancelledDownloadWorld).1 =
      Result.Abort ∧
    (ConnectionManagerStartThread.tryBody exampleConfig 1 exampleCancelledDownloadWorld).2.trace =
      [Event.GetNextServer (some (exampleServer "10.0.0.1")),
       Event.GetList [],
       Event.GetRequest "10.0.0.1" 443 "cert"
         "/handshake?propagation_channel_id=P&sponsor_id=S&client_version=1&server_secret=secret"
         true,
       Event.AddEntriesToList [],
       Event.GetRequest "10.0.0.1" 443 "cert"
         "/download?propagation_channel_id=P&sponsor_id=S&client_version=2&server_secret=secret"
         false] := by
  decide!

/-- Claim C4, amended: when the handshake for `s` succeeds and parses with a
non-empty upgrade version, the download request fails and the cancellation
flag is not set when it is then examined, the upgrade section returns false
without `Abort` or `TryNextServer` and without running `DoUpgrade` (no file is
touched, `GetModuleFileName` is not called, the only call is the download
request), and the body goes on with the transport section for the same `s`; if
there the version check passes, `VPNEstablish` succeeds, the first wait returns
and the state read next is `CONNECTED`, the state `CONNECTED_VPN` is set. -/
theorem C4_failed_download_proceeds (cfg : Config) (waitFuel : Nat) (w : World)
    (s : ServerEntry) (response : String) (parsed : HandshakeResponse)
    (hnext : w.nextServers.head = some s) (hreq : w.httpsResponses.head = some response)
    (hparse : cfg.ParseHandshakeResponse response = some parsed)
    (hup : parsed.upgradeVersion.length > 0)
    (hdown : w.httpsResponses.tail.head = none)
    (hflag : w.m.m_userSignalledStop = false) (hstop : w.stopRequests.head = false) :
    ∃ w1 w2 : World,
      ConnectionManagerStartThread.handshake cfg w = (Result.ok s, w1) ∧
      ConnectionManagerStartThread.upgrade cfg s w1 = (Result.ok false, w2) ∧
      w2.trace = w1.trace ++
        [Event.GetRequest s.serverAddress s.webServerPort s.webServerCertificate
          (cfg.HTTP_DOWNLOAD_REQUEST_PATH ++
            requestQuery cfg parsed.upgradeVersion s.webServerSecret) false] ∧
      w2.fs = w.fs ∧ w2.moduleFileNames = w.moduleFileNames ∧
      w2.m.m_currentSessionInfo.serverEntry = s ∧
      ConnectionManagerStartThread.tryBody cfg waitFuel w =
        M.bind (ConnectionManagerStartThread.connect cfg waitFuel s)
          (fun _ => M.pure false) w2 ∧
      ∀ w3 : World,
        versionCheckFails w2.osVersions.head = false →
        w2.vpnEstablishResults.head = true →
        WaitForVPNConnectionStateToChangeFrom VPNConnectionState.STARTING waitFuel
          (afterVPNEstablish w2) = (Result.ok (), w3) →
        w3.vpnStates.head = VPNConnectionState.CONNECTED →
        DoVPNConnection cfg waitFuel s w2 =
          DoVPNConnection.connected cfg waitFuel s (afterConnected w3) ∧
        (afterConnected w3).m.m_state = ConnectionManagerState.CONNECTED_VPN := by
  have h1 := handshake_ok cfg w s response parsed hnext hreq hparse
  have h2 := upgrade_failed_download cfg (afterHandshake cfg w s parsed) s
    (by simpa [afterHandshake, SessionInfo.load] using hup) hdown hflag hstop
  refine ⟨afterHandshake cfg w s parsed,
    afterFailedDownload cfg (afterHandshake cfg w s parsed) s, h1, h2, ?_, rfl, rfl, rfl, ?_, ?_⟩
  · simp [afterFailedDownload, afterHandshake, SessionInfo.load, SessionInfo.Set]
  · rw [tryBody_after_handshake cfg waitFuel w _ s h1,
      upgradeAndConnect_not_upgraded cfg waitFuel _ _ s h2]
  · intro w3 hversion hestablish hwait hconnected
    exact ⟨DoVPNConnection_connected_eq cfg waitFuel s _ w3 hversion hestablish hwait hconnected,
      rfl⟩

/-- Witness of `C4_failed_download_proceeds`: the world `exampleUpgradeWorld`. -/
theorem C4_failed_download_proceeds_witness :
    ∃ w1 w2 : World,
      ConnectionManagerStartThread.handshake exampleConfig exampleUpgradeWorld =
        (Result.ok (exampleServer "10.0.0.1"), w1) ∧
      ConnectionManagerStartThread.upgrade exampleConfig (exampleServer "10.0.0.1") w1 =
        (Result.ok false, w2) ∧
      w2.trace = w1.trace ++
        [Event.GetRequest (exampleServer "10.0.0.1").serverAddress
          (exampleServer "10.0.0.1").webServerPort
          (exampleServer "10.0.0.1").webServerCertificate
          (exampleConfig.HTTP_DOWNLOAD_REQUEST_PATH ++
            requestQuery exampleConfig
              (HandshakeResponse.mk "psk" ["home"] "2" []).upgradeVersion
              (exampleServer "10.0.0.1").webServerSecret) false] ∧
      w2.fs = exampleUpgradeWorld.fs ∧
      w2.moduleFileNames = exampleUpgradeWorld.moduleFileNames ∧
      w2.m.m_currentSessionInfo.serverEntry = exampleServer "10.0.0.1" ∧
      ConnectionManagerStartThread.tryBody exampleConfig 1 exampleUpgradeWorld =
        M.bind (ConnectionManagerStartThread.connect exampleConfig 1 (exampleServer "10.0.0.1"))
          (fun _ => M.pure false) w2 ∧
      ∀ w3 : World,
        versionCheckFails w2.osVersions.head = false →
        w2.vpnEstablishResults.head = true →
        WaitForVPNConnectionStateToChangeFrom VPNConnectionState.STARTING 1
          (afterVPNEstablish w2) = (Result.ok (), w3) →
        w3.vpnStates.head = VPNConnectionState.CONNECTED →
        DoVPNConnection exampleConfig 1 (exampleServer "10.0.0.1") w2 =
          DoVPNConnection.connected exampleConfig 1 (exampleServer "10.0.0.1")
            (afterConnected w3) ∧
        (afterConnected w3).m.m_state = ConnectionManagerState.CONNECTED_VPN :=
  C4_failed_download_proceeds exampleConfig 1 exampleUpgradeWorld (exampleServer "10.0.0.1")
    "up" (HandshakeResponse.mk "psk" ["home"] "2" []) rfl rfl (by decide) (by decide) rfl rfl rfl

/-- The run of `exampleUpgradeWorld`, evaluated: after the failed download no
file is touched, the VPN attempt is made for "10.0.0.1", the state
`CONNECTED_VPN` is set, and `STOPPED` once the connection has stopped. -/
theorem exampleUpgradeWorld_trace :
    (ConnectionManagerStartThread.tryBody exampleConfig 1 exampleUpgradeWorld).2.trace =
      [Event.GetNextServer (some (exampleServer "10.0.0.1")),
       Event.GetList [],
       Event.GetRequest "10.0.0.1" 443 "cert"
         "/handshake?propagation_channel_id=P&sponsor_id=S&client_version=1&server_secret=secret"
         true,
       Event.AddEntriesToList [],
       Event.GetRequest "10.0.0.1" 443 "cert"
         "/download?propagation_channel_id=P&sponsor_id=S&client_version=2&server_secret=secret"
         false,
       Event.GetVersionEx,
       Event.TweakVPN,
       Event.VPNEstablish "10.0.0.1" "psk" true,
       Event.SetState ConnectionManagerState.CONNECTED_VPN,
       Event.TweakDNS,
       Event.OpenBrowser ["home"],
       Event.GetRequest "10.0.0.1" 443 "cert"
         "/connected?propagation_channel_id=P&sponsor_id=S&client_version=1&server_secret=secret&vpn_client_ip_address=10.0.0.2"
         false,
       Event.SetState ConnectionManagerState.STOPPED] := by
  decide!

/-! ## The handshake request path: claim C11 -/

/-- Appending the `known_server` parameters one by one gives the base path
followed by their concatenation. -/
theorem foldl_known_server (known : List ServerEntry) (base : String) :
    known.foldl (fun path ii => path ++ "&known_server=" ++ ii.serverAddress) base =
      base ++ concatStrings (knownServerParameters known) := by
  induction known generalizing base with
  | nil => simp [knownServerParameters, concatStrings]
  | cons e rest ih =>
    rw [List.foldl_cons, ih]
    simp only [knownServerParameters, List.map_cons, concatStrings, String.append_assoc]

/-- Claim C11: for every list `GetList` returns and every selected server `s`,
the handshake request path that `LoadNextServer` builds is the handshake base
path, the parameters `propagation_channel_id`, `sponsor_id`, `client_version`
and `server_secret` (the secret of `s`) in that order, and then
"&known_server=" and the address for every entry of the list, in list order:
as many `known_server` parameters as the list has entries, the one of `s`
among them when `s` is in the list. -/
theorem C11_handshake_request_path (cfg : Config) (w : World) (s : ServerEntry)
    (hnext : w.nextServers.head = some s) :
    (LoadNextServer cfg w).1 = Result.ok (s,
      cfg.HTTP_HANDSHAKE_REQUEST_PATH ++
        "?propagation_channel_id=" ++ cfg.PROPAGATION_CHANNEL_ID ++
        "&sponsor_id=" ++ cfg.SPONSOR_ID ++
        "&client_version=" ++ cfg.CLIENT_VERSION ++
        "&server_secret=" ++ s.webServerSecret ++
        concatStrings (knownServerParameters w.serverLists.head)) ∧
    (knownServerParameters w.serverLists.head).length = w.serverLists.head.length ∧
    (∀ e ∈ w.serverLists.head,
      "&known_server=" ++ e.serverAddress ∈ knownServerParameters w.serverLists.head) ∧
    (s ∈ w.serverLists.head →
      "&known_server=" ++ s.serverAddress ∈ knownServerParameters w.serverLists.head) := by
  refine ⟨?_, ?_, ?_, ?_⟩
  · simp only [LoadNextServer, bind_eq_M_bind, pure_eq_M_pure, M.bind, M.pure,
      vpnList_GetNextServer, hnext, setSession, getSession, vpnList_GetList,
      foldl_known_server, SessionInfo.Set, requestQuery]
    simp only [String.append_assoc]
  · simp [knownServerParameters]
  · intro e he
    exact List.mem_map.mpr ⟨e, he, rfl⟩
  · intro hs
    exact List.mem_map.mpr ⟨s, hs, rfl⟩

/-- Witness of `C11_handshake_request_path`: two known servers, the second one
selected. -/
theorem C11_handshake_request_path_witness :
    (LoadNextServer exampleConfig exampleKnownServersWorld).1 =
      Result.ok (exampleServer "10.0.0.2",
        exampleConfig.HTTP_HANDSHAKE_REQUEST_PATH ++
          "?propagation_channel_id=" ++ exampleConfig.PROPAGATION_CHANNEL_ID ++
          "&sponsor_id=" ++ exampleConfig.SPONSOR_ID ++
          "&client_version=" ++ exampleConfig.CLIENT_VERSION ++
          "&server_secret=" ++ (exampleServer "10.0.0.2").webServerSecret ++
          concatStrings (knownServerParameters exampleKnownServersWorld.serverLists.head)) ∧
    (knownServerParameters exampleKnownServersWorld.serverLists.head).length =
      exampleKnownServersWorld.serverLists.head.length ∧
    (∀ e ∈ exampleKnownServersWorld.serverLists.head,
      "&known_server=" ++ e.serverAddress ∈
        knownServerParameters exampleKnownServersWorld.serverLists.head) ∧
    (exampleServer "10.0.0.2" ∈ exampleKnownServersWorld.serverLists.head →
      "&known_server=" ++ (exampleServer "10.0.0.2").serverAddress ∈
        knownServerParameters exampleKnownServersWorld.serverLists.head) :=
  C11_handshake_request_path exampleConfig exampleKnownServersWorld (exampleServer "10.0.0.2")
    rfl

/-- The path of the example, evaluated. -/
theorem exampleKnownServersWorld_path :
    (LoadNextServer exampleConfig exampleKnownServersWorld).1 =
      Result.ok (exampleServer "10.0.0.2",
        "/handshake?propagation_channel_id=P&sponsor_id=S&client_version=1&server_secret=secret&known_server=10.0.0.1&known_server=10.0.0.2") := by
  decide

/-! ## The platform check of the VPN attempt: claim C12 -/

/-- When the check is `versionCheckFails`: the query fails, or the version is
below 5.1. -/
theorem versionCheckFails_iff (version : Option (Nat × Nat)) :
    versionCheckFails version = true ↔
      version = none ∨
      ∃ major minor, version = some (major, minor) ∧ (major < 5 ∨ (major = 5 ∧ minor = 0)) := by
  cases version with
  | none => simp [versionCheckFails]
  | some v =>
    obtain ⟨major, minor⟩ := v
    simp only [versionCheckFails, Bool.or_eq_true, decide_eq_true_eq, Bool.and_eq_true,
      beq_iff_eq, Option.some.injEq, Prod.mk.injEq, false_or, reduceCtorEq]
    constructor
    · intro h
      exact ⟨major, minor, ⟨rfl, rfl⟩, h⟩
    · rintro ⟨a, b, ⟨rfl, rfl⟩, h⟩
      exact h

/-- The VPN attempt when the version check fails. -/
theorem DoVPNConnection_version_abort (cfg : Config) (fuel : Nat) (s : ServerEntry) (w : World)
    (h : versionCheckFails w.osVersions.head = true) :
    DoVPNConnection cfg fuel s w = (Result.Abort, afterVersionCheck w) := by
  simp [DoVPNConnection, M.bind, GetVersionEx, h, throwAbort, afterVersionCheck]

/-- After a version check that passes, `TweakVPN` and `VPNEstablish` are the
next calls. -/
theorem after_version_check {k : Unit → M Unit} (hk : ∀ a, Quiet (k a)) (w : World)
    (h : versionCheckFails w.osVersions.head = false) :
    ∃ events,
      (M.bind GetVersionEx (fun versionInfo =>
        if versionCheckFails versionInfo = true then throwAbort
        else M.bind TweakVPN fun _ => M.bind VPNEstablish k) w).2.trace =
      w.trace ++ Event.GetVersionEx :: Event.TweakVPN ::
        Event.VPNEstablish w.m.m_currentSessionInfo.serverEntry.serverAddress
          w.m.m_currentSessionInfo.psk w.vpnEstablishResults.head :: events := by
  cases he : w.vpnEstablishResults.head with
  | false =>
    exact ⟨[], by simp [M.bind, GetVersionEx, h, TweakVPN, emit, VPNEstablish, he]⟩
  | true =>
    obtain ⟨events, htrace, _⟩ := hk ()
      { w with osVersions := w.osVersions.tail,
               vpnEstablishResults := w.vpnEstablishResults.tail,
               trace := w.trace ++
                 [Event.GetVersionEx, Event.TweakVPN,
                  Event.VPNEstablish w.m.m_currentSessionInfo.serverEntry.serverAddress
                    w.m.m_currentSessionInfo.psk true] }
    refine ⟨events, ?_⟩
    simp [M.bind, GetVersionEx, h, TweakVPN, emit, VPNEstablish, he]
    simpa using htrace

/-- The VPN attempt when the version check passes: the establish request is
issued. -/
theorem DoVPNConnection_version_pass (cfg : Config) (fuel : Nat) (s : ServerEntry) (w : World)
    (h : versionCheckFails w.osVersions.head = false) :
    ∃ events, (DoVPNConnection cfg fuel s w).2.trace =
      w.trace ++ Event.GetVersionEx :: Event.TweakVPN ::
        Event.VPNEstablish w.m.m_currentSessionInfo.serverEntry.serverAddress
          w.m.m_currentSessionInfo.psk w.vpnEstablishResults.head :: events := by
  unfold DoVPNConnection
  simp only [bind_eq_M_bind, pure_eq_M_pure]
  apply after_version_check _ w h
  intro _
  repeat' first
    | exact Quiet.WaitForVPNConnectionStateToChangeFrom _ _
    | exact Quiet.GetVPNConnectionState
    | exact Quiet.DoVPNConnection_failed _ _
    | exact Quiet.DoVPNConnection_connected _ _ _
    | exact Quiet.SetState _
    | apply Quiet.bind
    | split
    | intro _

/-- Claim C12: `DoVPNConnection` raises `Abort` at its version check exactly
when the version query fails or the version is below (5, 1), that is when
`major < 5` or `major = 5` and `minor = 0`.  In that case `GetVersionEx` is its
only call: no establish request, no failed-request report, no backoff; the
transport section makes no SSH attempt and the worker tears down and returns
without marking a server failed.  Otherwise the check passes and the establish
request is issued. -/
theorem C12_version_check (cfg : Config) (waitFuel : Nat) (s : ServerEntry) (w : World)
    (version : Option (Nat × Nat)) (hversion : w.osVersions.head = version) :
    (versionCheckFails version = true ↔
      version = none ∨
      ∃ major minor, version = some (major, minor) ∧ (major < 5 ∨ (major = 5 ∧ minor = 0))) ∧
    (∀ major minor : Nat,
      (major < 5 ∨ (major = 5 ∧ minor = 0)) ↔ (major < 5 ∨ (major = 5 ∧ minor < 1))) ∧
    (versionCheckFails version = true →
      DoVPNConnection cfg waitFuel s w = (Result.Abort, afterVersionCheck w) ∧
      ConnectionManagerStartThread.connect cfg waitFuel s w =
        (Result.Abort, afterVersionCheck w) ∧
      ∀ (fuel : Nat) (w0 w1 : World),
        ConnectionManagerStartThread.handshake cfg w0 = (Result.ok s, w1) →
        ConnectionManagerStartThread.upgrade cfg s w1 = (Result.ok false, w) →
        ConnectionManagerStartThread cfg waitFuel (fuel + 1) w0 =
          (Result.ok (),
            { w with m := { w.m with m_state := ConnectionManagerState.STOPPED },
                     osVersions := w.osVersions.tail,
                     trace := w.trace ++
                       [Event.GetVersionEx, Event.RemoveVPNConnection, Event.SSHDisconnect,
                        Event.SetState ConnectionManagerState.STOPPED] })) ∧
    (versionCheckFails version = false →
      ∃ events, (DoVPNConnection cfg waitFuel s w).2.trace =
        w.trace ++ Event.GetVersionEx :: Event.TweakVPN ::
          Event.VPNEstablish w.m.m_currentSessionInfo.serverEntry.serverAddress
            w.m.m_currentSessionInfo.psk w.vpnEstablishResults.head :: events) := by
  subst hversion
  refine ⟨versionCheckFails_iff _, ?_, ?_, DoVPNConnection_version_pass cfg waitFuel s w⟩
  · intro major minor
    omega
  · intro hfail
    have hvpn := DoVPNConnection_version_abort cfg waitFuel s w hfail
    have hconnect : ConnectionManagerStartThread.connect cfg waitFuel s w =
        (Result.Abort, afterVersionCheck w) := by
      simp [ConnectionManagerStartThread.connect, catchTryNextServer, hvpn]
    refine ⟨hvpn, hconnect, ?_⟩
    intro fuel w0 w1 hhandshake hupgrade
    have hbody : ConnectionManagerStartThread.tryBody cfg waitFuel w0 =
        (Result.Abort, afterVersionCheck w) := by
      rw [tryBody_after_handshake cfg waitFuel w0 w1 s hhandshake,
        upgradeAndConnect_not_upgraded cfg waitFuel w1 w s hupgrade]
      simp [M.bind, hconnect]
    simp [ConnectionManagerStartThread, hbody, ConnectionManagerStartThread.catchAbort,
      M.bind, RemoveVPNConnection, SSHDisconnect, SetState, emit, afterVersionCheck]

/-- Witness of `C12_version_check`: Windows 2000, version 5.0. -/
theorem C12_version_check_witness :
    (versionCheckFails (some (5, 0)) = true ↔
      (some (5, 0) : Option (Nat × Nat)) = none ∨
      ∃ major minor, (some (5, 0) : Option (Nat × Nat)) = some (major, minor) ∧
        (major < 5 ∨ (major = 5 ∧ minor = 0))) ∧
    (∀ major minor : Nat,
      (major < 5 ∨ (major = 5 ∧ minor = 0)) ↔ (major < 5 ∨ (major = 5 ∧ minor < 1))) ∧
    (versionCheckFails (some (5, 0)) = true →
      DoVPNConnection exampleConfig 1 (exampleServer "10.0.0.1") exampleWindows2000World =
        (Result.Abort, afterVersionCheck exampleWindows2000World) ∧
      ConnectionManagerStartThread.connect exampleConfig 1 (exampleServer "10.0.0.1")
          exampleWindows2000World =
        (Result.Abort, afterVersionCheck exampleWindows2000World) ∧
      ∀ (fuel : Nat) (w0 w1 : World),
        ConnectionManagerStartThread.handshake exampleConfig w0 =
          (Result.ok (exampleServer "10.0.0.1"), w1) →
        ConnectionManagerStartThread.upgrade exampleConfig (exampleServer "10.0.0.1") w1 =
          (Result.ok false, exampleWindows2000World) →
        ConnectionManagerStartThread exampleConfig 1 (fuel + 1) w0 =
          (Result.ok (),
            { exampleWindows2000World with
              m := { exampleWindows2000World.m with
                     m_state := ConnectionManagerState.STOPPED },
              osVersions := exampleWindows2000World.osVersions.tail,
              trace := exampleWindows2000World.trace ++
                [Event.GetVersionEx, Event.RemoveVPNConnection, Event.SSHDisconnect,
                 Event.SetState ConnectionManagerState.STOPPED] })) ∧
    (versionCheckFails (some (5, 0)) = false →
      ∃ events, (DoVPNConnection exampleConfig 1 (exampleServer "10.0.0.1")
          exampleWindows2000World).2.trace =
        exampleWindows2000World.trace ++ Event.GetVersionEx :: Event.TweakVPN ::
          Event.VPNEstablish
            exampleWindows2000World.m.m_currentSessionInfo.serverEntry.serverAddress
            exampleWindows2000World.m.m_currentSessionInfo.psk
            exampleWindows2000World.vpnEstablishResults.head :: events) :=
  C12_version_check exampleConfig 1 (exampleServer "10.0.0.1") exampleWindows2000World
    (some (5, 0)) rfl

/-- The version check at the boundary: 5.0 fails, 5.1 passes, 4.9 fails, 6.0
passes, a failed query fails. -/
theorem versionCheckFails_examples :
    versionCheckFails (some (5, 0)) = true ∧ versionCheckFails (some (5, 1)) = false ∧
    versionCheckFails (some (4, 9)) = true ∧ versionCheckFails (some (6, 0)) = false ∧
    versionCheckFails none = true := by
  decide

/-! ## The backoff of a failed VPN negotiation: claim C13 -/

/-- The VPN attempt whose negotiation leaves the starting state in a state other
than connected. -/
theorem DoVPNConnection_failed_eq (cfg : Config) (fuel : Nat) (s : ServerEntry) (w w3 : World)
    (hversion : versionCheckFails w.osVersions.head = false)
    (hestablish : w.vpnEstablishResults.head = true)
    (hwait : WaitForVPNConnectionStateToChangeFrom VPNConnectionState.STARTING fuel
      (afterVPNEstablish w) = (Result.ok (), w3))
    (hfailed : w3.vpnStates.head ≠ VPNConnectionState.CONNECTED) :
    DoVPNConnection cfg fuel s w = (Result.TryNextServer, afterVPNFailed cfg s w3) := by
  have hw : WaitForVPNConnectionStateToChangeFrom VPNConnectionState.STARTING fuel
      { w with osVersions := w.osVersions.tail,
               vpnEstablishResults := w.vpnEstablishResults.tail,
               trace := w.trace ++
                 [Event.GetVersionEx, Event.TweakVPN,
                  Event.VPNEstablish w.m.m_currentSessionInfo.serverEntry.serverAddress
                    w.m.m_currentSessionInfo.psk true] } = (Result.ok (), w3) := hwait
  simp [DoVPNConnection, M.bind, GetVersionEx, hversion, TweakVPN, emit, VPNEstablish,
    hestablish, hw, GetVPNConnectionState, Ne.symm hfailed, DoVPNConnection.failed,
    GetFailedRequestPath, GetRequest, rand, Sleep, throwTryNextServer, afterVPNFailed,
    backoffDelay]

/-- Claim C13: when the version check passed, the establish request succeeded,
the first wait returned and the state read next is not `CONNECTED`,
`DoVPNConnection` reports the failed request, whatever its result, sleeps the
backoff delay `1000 + r % 4000` for the value `r` of `rand`, and raises
`TryNextServer`; the delay lies in the window from 1000 to 4999 ms, and every
value of that window is the delay of some `r` below 4000. -/
theorem C13_backoff (cfg : Config) (fuel : Nat) (s : ServerEntry) (w w3 : World)
    (hversion : versionCheckFails w.osVersions.head = false)
    (hestablish : w.vpnEstablishResults.head = true)
    (hwait : WaitForVPNConnectionStateToChangeFrom VPNConnectionState.STARTING fuel
      (afterVPNEstablish w) = (Result.ok (), w3))
    (hfailed : w3.vpnStates.head ≠ VPNConnectionState.CONNECTED) :
    DoVPNConnection cfg fuel s w = (Result.TryNextServer, afterVPNFailed cfg s w3) ∧
    (afterVPNFailed cfg s w3).trace = w3.trace ++
      [Event.GetRequest s.serverAddress s.webServerPort s.webServerCertificate
         (cfg.HTTP_FAILED_REQUEST_PATH ++
           requestQuery cfg cfg.CLIENT_VERSION
             w3.m.m_currentSessionInfo.serverEntry.webServerSecret ++
           "&error_code=" ++ toString w3.vpnErrorCodes.head)
         w3.httpsResponses.head.isSome,
       Event.Sleep (1000 + w3.rands.head % 4000)] ∧
    (∀ r : Nat, backoffDelay r = 1000 + r % 4000 ∧
      1000 ≤ backoffDelay r ∧ backoffDelay r < 5000) ∧
    (∀ delay : Nat, 1000 ≤ delay → delay < 5000 → ∃ r, r < 4000 ∧ backoffDelay r = delay) := by
  refine ⟨DoVPNConnection_failed_eq cfg fuel s w w3 hversion hestablish hwait hfailed, rfl,
    ?_, ?_⟩
  · intro r
    refine ⟨rfl, ?_, ?_⟩
    · exact Nat.le_add_right 1000 (r % 4000)
    · have := Nat.mod_lt r (by decide : 0 < 4000)
      show 1000 + r % 4000 < 5000
      omega
  · intro delay hlow hhigh
    refine ⟨delay - 1000, by omega, ?_⟩
    show 1000 + (delay - 1000) % 4000 = delay
    rw [Nat.mod_eq_of_lt (by omega)]
    omega

/-- Witness of `C13_backoff`: in `World.quiet` the VPN state is `FAILED` at the
first read. -/
theorem C13_backoff_witness :
    DoVPNConnection exampleConfig 1 (exampleServer "10.0.0.1") World.quiet =
      (Result.TryNextServer,
        afterVPNFailed exampleConfig (exampleServer "10.0.0.1")
          { afterVPNEstablish World.quiet with
            vpnStates := (afterVPNEstablish World.quiet).vpnStates.tail }) ∧
    (afterVPNFailed exampleConfig (exampleServer "10.0.0.1")
      { afterVPNEstablish World.quiet with
        vpnStates := (afterVPNEstablish World.quiet).vpnStates.tail }).trace =
      ({ afterVPNEstablish World.quiet with
         vpnStates := (afterVPNEstablish World.quiet).vpnStates.tail } : World).trace ++
      [Event.GetRequest (exampleServer "10.0.0.1").serverAddress
         (exampleServer "10.0.0.1").webServerPort
         (exampleServer "10.0.0.1").webServerCertificate
         (exampleConfig.HTTP_FAILED_REQUEST_PATH ++
           requestQuery exampleConfig exampleConfig.CLIENT_VERSION
             ({ afterVPNEstablish World.quiet with
                vpnStates := (afterVPNEstablish World.quiet).vpnStates.tail }
               : World).m.m_currentSessionInfo.serverEntry.webServerSecret ++
           "&error_code=" ++ toString ({ afterVPNEstablish World.quiet with
             vpnStates := (afterVPNEstablish World.quiet).vpnStates.tail }
               : World).vpnErrorCodes.head)
         ({ afterVPNEstablish World.quiet with
            vpnStates := (afterVPNEstablish World.quiet).vpnStates.tail }
           : World).httpsResponses.head.isSome,
       Event.Sleep (1000 + ({ afterVPNEstablish World.quiet with
         vpnStates := (afterVPNEstablish World.quiet).vpnStates.tail }
           : World).rands.head % 4000)] ∧
    (∀ r : Nat, backoffDelay r = 1000 + r % 4000 ∧
      1000 ≤ backoffDelay r ∧ backoffDelay r < 5000) ∧
    (∀ delay : Nat, 1000 ≤ delay → delay < 5000 → ∃ r, r < 4000 ∧ backoffDelay r = delay) :=
  C13_backoff exampleConfig 1 (exampleServer "10.0.0.1") World.quiet _ rfl rfl
    (WaitForVPNConnectionStateToChangeFrom_changed VPNConnectionState.STARTING 0
      (afterVPNEstablish World.quiet) (by decide))
    (by decide)

/-- The backoff delay at the ends of its window. -/
theorem backoffDelay_examples :
    backoffDelay 0 = 1000 ∧ backoffDelay 3999 = 4999 ∧ backoffDelay 4000 = 1000 ∧
    backoffDelay 32767 = 1767 := by
  decide

/-! ## The state during a run: claim C14 -/

/-- A program that leaves the trace and the state unchanged is calm. -/
theorem calm_of_trace {α : Type} {x : M α} (h : ∀ w, (x w).2.trace = w.trace)
    (hs : ∀ w, (x w).2.m.m_state = w.m.m_state) : Calm x :=
  fun w => ⟨[], by simp [h w], by simp, hs w⟩

/-- A program that appends one call, not a `SetState`, and leaves the state
unchanged is calm. -/
theorem calm_of_event {α : Type} {x : M α} (e : World → Event)
    (h : ∀ w, (x w).2.trace = w.trace ++ [e w]) (he : ∀ w, Event.isSetState (e w) = false)
    (hs : ∀ w, (x w).2.m.m_state = w.m.m_state) : Calm x :=
  fun w => ⟨[e w], h w, by simp [he w], hs w⟩

/-- Recording a call that is not a `SetState` is calm. -/
theorem calm_emit (e : Event) (he : Event.isSetState e = false) : Calm (emit e) :=
  calm_of_event (fun _ => e) (fun _ => rfl) (fun _ => he) (fun _ => rfl)

/-- The program `MarkCurrentServerFailed` is calm. -/
theorem calm_MarkCurrentServerFailed : Calm MarkCurrentServerFailed := calm_emit _ rfl

/-- The program `SSHDisconnect` is calm. -/
theorem calm_SSHDisconnect : Calm SSHDisconnect := calm_emit _ rfl

/-- The program `SSHWaitAndDisconnect` is calm. -/
theorem calm_SSHWaitAndDisconnect : Calm SSHWaitAndDisconnect := calm_emit _ rfl

/-- The program `TweakDNS` is calm. -/
theorem calm_TweakDNS : Calm TweakDNS := calm_emit _ rfl

/-- The program `OpenHomePages` is calm. -/
theorem calm_OpenHomePages : Calm OpenHomePages :=
  calm_of_event (fun w => Event.OpenBrowser w.m.m_currentSessionInfo.homepages)
    (fun _ => rfl) (fun _ => rfl) (fun _ => rfl)

/-- The program `GetConnectRequestPath` is calm. -/
theorem calm_GetConnectRequestPath (cfg : Config) : Calm (GetConnectRequestPath cfg) :=
  calm_of_trace (fun _ => rfl) (fun _ => rfl)

end Psiphon
